import Mathlib

/-
Shallow embedding of the TerrexTech/go-mongoutils repository.

The repository is a thin wrapper over the mongo-go-driver: it creates
collections with declared indexes (newcollection.go), validates data
against a declared schema shape, and offers CRUD helpers that translate
arguments to BSON, call the driver with a timeout context, and decode
cursors (collection.go, datautils.go).

Modelling choices:
  - Go dynamic types are modelled by the inductive GoType; each non-pointer
    constructor carries the string reflect.Type.String would print for it
    (pointer types prepend a star, as in Go).  Struct types carry their
    field list as pairs of field name and raw bson tag.
  - The external driver is an oracle (structure Driver) giving the results
    of encoding, of each driver operation, and of cursor decoding.
  - Every operation returns a GoResult (a Go-style pair of optional value
    and optional error, plus a panicked case for Go runtime panics) and a
    trace of events: validation, BSON translation, context creation and
    cancellation, driver invocations and cursor steps.
  - Errors are an inductive mirroring pkg/errors: a new error message, or
    a wrap of a cause with a message.
-/

inductive GoKind where
  | ptrK
  | structK
  | mapK
  | sliceK
  | arrayK
  | stringK
  | intK
  | otherK
deriving DecidableEq, Repr

/-- Go types as needed by the reflection checks of the repository.
Non-pointer constructors carry the string that reflect.Type.String prints
for them; Go never prints a leading star for a non-pointer type. -/
inductive GoType where
  | ptr (t : GoType)
  | structT (name : String) (fields : List (String × String))
  | mapT (name : String)
  | sliceT (name : String)
  | arrayT (name : String)
  | prim (name : String) (kind : GoKind)
deriving DecidableEq, Repr

def GoType.kind : GoType → GoKind
  | .ptr _ => .ptrK
  | .structT _ _ => .structK
  | .mapT _ => .mapK
  | .sliceT _ => .sliceK
  | .arrayT _ => .arrayK
  | .prim _ k => k

/-- The string reflect.Type.String prints (a pointer type prepends a star). -/
def GoType.typeString : GoType → String
  | .ptr t => "*" ++ t.typeString
  | .structT n _ => n
  | .mapT n => n
  | .sliceT n => n
  | .arrayT n => n
  | .prim n _ => n

/-- reflect.Type.Elem for pointers; identity otherwise (the code only calls
Elem after checking the kind is Ptr). -/
def GoType.elemType : GoType → GoType
  | .ptr t => t
  | t => t

/-- Fields of a struct type (name, raw bson tag). -/
def GoType.fields : GoType → List (String × String)
  | .structT _ fs => fs
  | _ => []

/-- Go runtime values.  base is an ordinary value of a dynamic type (the
payload distinguishes values of the same type); setWrapPtr models the value
that UpdateMany builds from its update argument, a pointer to the map
wrapping the update under a dollar-set key. -/
inductive Value where
  | base (type : GoType) (payload : Nat)
  | setWrapPtr (update : Value)
deriving DecidableEq, Repr

/-- The printed name stands in for the Go map-of-string-to-interface type. -/
def mapStringInterfaceType : GoType := GoType.mapT ("map-string-interface")

def Value.type : Value → GoType
  | .base t _ => t
  | .setWrapPtr _ => GoType.ptr mapStringInterfaceType

/-- Errors in the style of pkg/errors: a fresh message or a wrap of a cause. -/
inductive Err where
  | new (msg : String)
  | wrap (msg : String) (cause : Err)
deriving DecidableEq, Repr

/-- BSON values as far as the repository inspects them. -/
inductive BsonValue where
  | objectID (bytes : List Nat)
  | str (s : String)
  | i32 (n : Int)
  | boolean (b : Bool)
deriving DecidableEq, Repr

/-- A BSON document: ordered key-value pairs, as built by the driver's
document builder. -/
abbrev BsonDoc := List (String × BsonValue)

/-- bson.Document.Lookup: first value stored under the key, if any. -/
def docLookup (d : BsonDoc) (key : String) : Option BsonValue :=
  match d with
  | [] => none
  | (k, v) :: rest => if k = key then some v else docLookup rest key

/-- bson.Document.Delete: removes the first element stored under the key. -/
def docDelete (d : BsonDoc) (key : String) : BsonDoc :=
  match d with
  | [] => []
  | (k, v) :: rest => if k = key then rest else (k, v) :: docDelete rest key

def hexDigits : List String :=
  ["0", "1", "2", "3", "4", "5", "6", "7", "8", "9", "a", "b", "c", "d", "e", "f"]

def hexDigit (n : Nat) : String := (hexDigits.get? n).getD ("?")

def hexByte (b : Nat) : String := hexDigit (b / 16) ++ hexDigit (b % 16)

def bytesHex (bs : List Nat) : String := bs.foldl (fun acc b => acc ++ hexByte b) ("")

/-- objectid.ObjectID.String: the hex bytes inside an ObjectID wrapper. -/
def objectIDString (bs : List Nat) : String :=
  "ObjectID(\"" ++ bytesHex bs ++ "\")"

/-- The literal the source compares against in toBSON. -/
def zeroObjectIDString : String := "ObjectID(\"000000000000000000000000\")"

/-- Outcome of toBSON.  The panicked case models the driver panic raised by
bson.Value.ObjectID when the looked-up value is not a BSON ObjectID (the
driver documents this panic); the source calls it unconditionally on a
present underscore-id field. -/
inductive TB where
  | ok (doc : BsonDoc)
  | err (e : Err)
  | panicked (msg : String)
deriving DecidableEq, Repr

/-- toBSON from datautils.go: encode, then if the encoded document holds an
id field equal to the zero ObjectID, delete it so mongo generates one. -/
def toBSON (encode : Value → Except Err BsonDoc) (data : Value) : TB :=
  match encode data with
  | .error e => .err e
  | .ok doc =>
    match docLookup doc ("_id") with
    | none => .ok doc
    | some v =>
      match v with
      | .objectID bytes =>
        if objectIDString bytes = zeroObjectIDString then .ok (docDelete doc ("_id"))
        else .ok doc
      | _ => .panicked ("bson: Value.ObjectID on non-ObjectID value")

/-- strings.HasPrefix of a single star, via the underlying character list. -/
def startsWithStar (s : String) : Bool :=
  ("*").data.isPrefixOf s.data

/-- verifyKind from datautils.go: dereference a pointer type, then check the
kind against the valid kinds. -/
def verifyKind (t : GoType) (validKinds : List GoKind) : Bool :=
  let kind := if t.kind = GoKind.ptrK then t.elemType.kind else t.kind
  validKinds.any (fun k => kind = k)

/-- copyInterface from datautils.go: reflect.New on the (dereferenced) type;
this is the type of the freshly allocated pointee. -/
def copyInterface (t : GoType) : GoType :=
  if t.kind = GoKind.ptrK then t.elemType else t

structure ConnectionConfig where
  Timeout : Nat
deriving DecidableEq, Repr

structure IndexColumnConfig where
  Name : String
  IsDescOrder : Bool
deriving DecidableEq, Repr

structure IndexConfig where
  ColumnConfig : List IndexColumnConfig
  IsUnique : Bool
  Name : String
deriving DecidableEq, Repr

/-- Collection, with the Indexes slice kept optional to model a nil slice
and SchemaStruct optional to model a nil interface. -/
structure Collection where
  Connection : ConnectionConfig
  Database : String
  Name : String
  Indexes : Option (List IndexConfig)
  SchemaStruct : Option Value
deriving DecidableEq, Repr

structure InsertOneResult where
  insertedID : Nat
deriving DecidableEq, Repr

structure DeleteResult where
  deletedCount : Int
deriving DecidableEq, Repr

structure UpdateResult where
  matchedCount : Int
  modifiedCount : Int
deriving DecidableEq, Repr

/-- A decoded cursor element: a freshly allocated pointer (its address), the
pointee type it was allocated at, and the decoded value. -/
structure DecodedItem where
  addr : Nat
  pointee : GoType
  val : Value
deriving DecidableEq, Repr

/-- The external driver as an oracle for every operation the code calls. -/
structure Driver where
  encode : Value → Except Err BsonDoc
  insertOneRes : BsonDoc → Except Err InsertOneResult
  deleteManyRes : BsonDoc → Except Err DeleteResult
  updateManyRes : BsonDoc → BsonDoc → Except Err UpdateResult
  findRes : BsonDoc → Except Err (List BsonDoc)
  findRawRes : Value → Except Err (List BsonDoc)
  aggregateRes : Value → Except Err (List BsonDoc)
  findOneDecode : BsonDoc → GoType → Except Err Value
  createIndexRes : BsonDoc → BsonDoc → Option Err
  closeRes : Option Err
  decode : BsonDoc → GoType → Except Err Value

/-- Observable events of one operation call.  Context identifiers are local
to the call, numbered in order of creation. -/
inductive Event where
  | getCollectionHandle (db coll : String)
  | ctxCreate (id : Nat) (timeoutMs : Nat)
  | ctxCancel (id : Nat)
  | validate
  | translate
  | driverCreateIndex (ctx : Nat) (keys opts : BsonDoc)
  | driverInsertOne (ctx : Nat) (doc : BsonDoc)
  | driverDeleteMany (ctx : Nat) (doc : BsonDoc)
  | driverUpdateMany (ctx : Nat) (filter update : BsonDoc)
  | driverFind (ctx : Nat) (doc : BsonDoc)
  | driverFindRaw (ctx : Nat) (filter : Value)
  | driverFindOne (ctx : Nat) (doc : BsonDoc)
  | driverAggregate (ctx : Nat) (pipeline : Value)
  | cursorNext (ctx : Nat)
  | cursorDecode (doc : BsonDoc)
  | cursorClose (ctx : Nat)
deriving DecidableEq, Repr

/-- newTimeoutContext from datautils.go: context.WithTimeout with the given
milliseconds; in the trace it is the creation event of a context. -/
def newTimeoutContext (id : Nat) (timeoutMs : Nat) : Event :=
  Event.ctxCreate id timeoutMs

def Event.isDriverCall : Event → Bool
  | .driverCreateIndex _ _ _ => true
  | .driverInsertOne _ _ => true
  | .driverDeleteMany _ _ => true
  | .driverUpdateMany _ _ _ => true
  | .driverFind _ _ => true
  | .driverFindRaw _ _ => true
  | .driverFindOne _ _ => true
  | .driverAggregate _ _ => true
  | _ => false

def hasDriverCall (evs : List Event) : Bool := evs.any Event.isDriverCall

/-- The context a driver invocation was issued with, if the event is one. -/
def Event.driverCtx : Event → Option Nat
  | .driverCreateIndex c _ _ => some c
  | .driverInsertOne c _ => some c
  | .driverDeleteMany c _ => some c
  | .driverUpdateMany c _ _ => some c
  | .driverFind c _ => some c
  | .driverFindRaw c _ => some c
  | .driverFindOne c _ => some c
  | .driverAggregate c _ => some c
  | _ => none

/-- Go-style return: an optional value and an optional error, or a panic. -/
inductive GoResult (α : Type) where
  | panicked (msg : String)
  | ret (val : Option α) (err : Option Err)
deriving DecidableEq, Repr

/-- verifySchemaStruct from newcollection.go. -/
def verifySchemaStruct (schemaStruct : Option Value) : Option Err :=
  match schemaStruct with
  | none => some (Err.new ("SchemaStruct cannot be nil"))
  | some v =>
    if v.type.kind ≠ GoKind.ptrK then
      some (Err.new ("SchemaStruct needs to be a pointer to struct"))
    else if v.type.elemType.kind ≠ GoKind.structK then
      some (Err.new ("SchemaStruct needs to be a pointer to struct"))
    else none

/-- The part of a bson tag before the first comma: the head of
strings.Split on a comma. -/
def tagName (tag : String) : String :=
  String.mk (tag.data.takeWhile (fun ch => ch ≠ ','))

/-- The collection keys gathered by verifyIndexKeys: one tag name per field
of the dereferenced schema struct. -/
def collectionKeys (schemaType : GoType) : List String :=
  schemaType.fields.map (fun f => tagName f.2)

/-- First column of an index whose name is not among the collection keys. -/
def findBadColumn (keys : List String) (cols : List IndexColumnConfig) : Option String :=
  match cols with
  | [] => none
  | col :: rest =>
    if keys.contains col.Name then findBadColumn keys rest else some col.Name

def firstBadIndexKey (keys : List String) (cfgs : List IndexConfig) : Option String :=
  match cfgs with
  | [] => none
  | cfg :: rest =>
    match findBadColumn keys cfg.ColumnConfig with
    | some n => some n
    | none => firstBadIndexKey keys rest

/-- verifyIndexKeys from newcollection.go. -/
def verifyIndexKeys (schemaStruct : Value) (cfgs : List IndexConfig) : Option Err :=
  match firstBadIndexKey (collectionKeys schemaStruct.type.elemType) cfgs with
  | some n =>
    some (Err.new ("Error: IndexKey: " ++ n ++ " not found in specified collection-keys"))
  | none => none

/-- The keys document createIndex builds: each column in order, mapped to
minus one when descending and one otherwise. -/
def indexKeysDoc (indexColumns : List IndexColumnConfig) : BsonDoc :=
  indexColumns.map (fun column =>
    (column.Name, BsonValue.i32 (if column.IsDescOrder then (-1 : Int) else 1)))

/-- The options document EnsureCollection builds: unique always, name only
when the config names the index. -/
def indexOptionsDoc (cfg : IndexConfig) : BsonDoc :=
  [("unique", BsonValue.boolean cfg.IsUnique)] ++
    (if cfg.Name ≠ "" then [("name", BsonValue.str cfg.Name)] else [])

/-- createIndex from newcollection.go: builds the keys document and issues
one CreateOne driver call on the given context. -/
def createIndex (drv : Driver) (ctxId : Nat) (indexColumns : List IndexColumnConfig)
    (indexOptions : BsonDoc) : Option Err × Event :=
  let indexBson := indexKeysDoc indexColumns
  (drv.createIndexRes indexBson indexOptions,
    Event.driverCreateIndex ctxId indexBson indexOptions)

/-- The index loop of EnsureCollection: one createIndex per config in slice
order, aborting on the first error. -/
def ensureIndexLoop (drv : Driver) (cfgs : List IndexConfig) : Option Err × List Event :=
  match cfgs with
  | [] => (none, [])
  | cfg :: rest =>
    match createIndex drv 0 cfg.ColumnConfig (indexOptionsDoc cfg) with
    | (some e, ev) => (some e, [ev])
    | (none, ev) =>
      let r := ensureIndexLoop drv rest
      (r.1, ev :: r.2)

/-- EnsureCollection from newcollection.go. -/
def EnsureCollection (drv : Driver) (copt : Option Collection) :
    GoResult Collection × List Event :=
  match copt with
  | none => (.ret none (some (Err.new ("Collection argument cannot be nil"))), [])
  | some c =>
    match verifySchemaStruct c.SchemaStruct with
    | some e => (.ret none (some (Err.wrap ("Schema Verification Error") e)), [])
    | none =>
      match c.SchemaStruct with
      | none => (.panicked ("unreachable: verifySchemaStruct accepted nil"), [])
      | some schema =>
        match verifyIndexKeys schema (c.Indexes.getD []) with
        | some e => (.ret none (some (Err.wrap ("Index-Keys Validation Error") e)), [])
        | none =>
          let evs0 := [Event.getCollectionHandle c.Database c.Name,
                       newTimeoutContext 0 c.Connection.Timeout]
          match c.Indexes with
          | none => (.ret (some c) none, evs0 ++ [Event.ctxCancel 0])
          | some cfgs =>
            let r := ensureIndexLoop drv cfgs
            match r.1 with
            | some e =>
              (.ret none (some e),
                evs0 ++ r.2 ++ [Event.ctxCancel 0, Event.ctxCancel 0])
            | none => (.ret (some c) none, evs0 ++ r.2 ++ [Event.ctxCancel 0])

/-- The error message of verifyDataSchema. -/
def mismatchErr : Err :=
  Err.new ("Mismatch between provided data-schema and expected schema. Consider changing collection.SchemaStruct if required.")

/-- verifyDataSchema from collection.go: compare the printed dynamic type of
the data, star-prefixed when not already a pointer, with the printed type of
the stored SchemaStruct. -/
def verifyDataSchema (schemaStruct : Value) (data : Value) : Option Err :=
  let dataType := data.type.typeString
  let dataType2 := if startsWithStar dataType then dataType else "*" ++ dataType
  let expectedType := schemaStruct.type.typeString
  if dataType2 ≠ expectedType then some mismatchErr else none

/-- The cursor loop shared by Find, FindMap and Aggregate: for each document
the cursor yields, allocate a fresh pointee with copyInterface (addresses
count up from the given start), decode into it, and abort with a wrapped
error (cancelling the cursor context) on the first decode failure. -/
def cursorLoop (drv : Driver) (ctxId : Nat) (wrapMsg : String) (pointee : GoType)
    (docs : List BsonDoc) (addr : Nat) : Except Err (List DecodedItem) × List Event :=
  match docs with
  | [] => (.ok [], [])
  | d :: rest =>
    let evs := [Event.cursorNext ctxId, Event.cursorDecode d]
    match drv.decode d pointee with
    | .error e => (.error (Err.wrap wrapMsg e), evs ++ [Event.ctxCancel ctxId])
    | .ok v =>
      let r := cursorLoop drv ctxId wrapMsg pointee rest (addr + 1)
      match r.1 with
      | .error e => (.error e, evs ++ r.2)
      | .ok items => (.ok (⟨addr, pointee, v⟩ :: items), evs ++ r.2)

/-- InsertOne from collection.go. -/
def InsertOne (drv : Driver) (c : Collection) (data : Value) :
    GoResult InsertOneResult × List Event :=
  match c.SchemaStruct with
  | none => (.panicked ("reflect: TypeOf nil SchemaStruct"), [Event.validate])
  | some schema =>
    match verifyDataSchema schema data with
    | some e =>
      (.ret none (some (Err.wrap ("InsertOne - Schema Verification Error") e)),
        [Event.validate])
    | none =>
      match toBSON drv.encode data with
      | .err e =>
        (.ret none (some (Err.wrap ("InsertOne - BSON Convert Error") e)),
          [Event.validate, Event.translate])
      | .panicked m => (.panicked m, [Event.validate, Event.translate])
      | .ok doc =>
        let evs := [Event.validate, Event.translate,
                    newTimeoutContext 0 c.Connection.Timeout,
                    Event.driverInsertOne 0 doc]
        match drv.insertOneRes doc with
        | .error e =>
          (.ret none (some (Err.wrap ("InsertOne Error") e)), evs ++ [Event.ctxCancel 0])
        | .ok r => (.ret (some r) none, evs ++ [Event.ctxCancel 0])

/-- DeleteMany from collection.go. -/
def DeleteMany (drv : Driver) (c : Collection) (filter : Value) :
    GoResult DeleteResult × List Event :=
  match c.SchemaStruct with
  | none => (.panicked ("reflect: TypeOf nil SchemaStruct"), [Event.validate])
  | some schema =>
    match verifyDataSchema schema filter with
    | some e =>
      (.ret none (some (Err.wrap ("DeleteMany - Schema Verification Error") e)),
        [Event.validate])
    | none =>
      match toBSON drv.encode filter with
      | .err e =>
        (.ret none (some (Err.wrap ("DeleteMany - BSON Convert Error") e)),
          [Event.validate, Event.translate])
      | .panicked m => (.panicked m, [Event.validate, Event.translate])
      | .ok doc =>
        let evs := [Event.validate, Event.translate,
                    newTimeoutContext 0 c.Connection.Timeout,
                    Event.driverDeleteMany 0 doc]
        match drv.deleteManyRes doc with
        | .error e =>
          (.ret none (some (Err.wrap ("Deletion Error") e)), evs ++ [Event.ctxCancel 0])
        | .ok r => (.ret (some r) none, evs ++ [Event.ctxCancel 0])

/-- Find from collection.go: validate, translate, driver find on a fresh
context, then decode the cursor on a second context and close it on a
third. -/
def Find (drv : Driver) (c : Collection) (filter : Value) :
    GoResult (List DecodedItem) × List Event :=
  match c.SchemaStruct with
  | none => (.panicked ("reflect: TypeOf nil SchemaStruct"), [Event.validate])
  | some schema =>
    match verifyDataSchema schema filter with
    | some e =>
      (.ret none (some (Err.wrap ("Find - Schema Verification Error") e)),
        [Event.validate])
    | none =>
      match toBSON drv.encode filter with
      | .err e =>
        (.ret none (some (Err.wrap ("Find - BSON Convert Error") e)),
          [Event.validate, Event.translate])
      | .panicked m => (.panicked m, [Event.validate, Event.translate])
      | .ok doc =>
        let T := c.Connection.Timeout
        let evs0 := [Event.validate, Event.translate, newTimeoutContext 0 T,
                     Event.driverFind 0 doc]
        match drv.findRes doc with
        | .error e =>
          (.ret none (some (Err.wrap ("Find Error") e)), evs0 ++ [Event.ctxCancel 0])
        | .ok docs =>
          let pointee := copyInterface schema.type
          let evs1 := evs0 ++ [Event.ctxCancel 0, newTimeoutContext 1 T]
          let lr := cursorLoop drv 1 ("Find - Cursor Decode Error") pointee docs 0
          match lr.1 with
          | .error e => (.ret none (some e), evs1 ++ lr.2)
          | .ok items =>
            let evs3 := evs1 ++ lr.2 ++
              [Event.cursorNext 1, Event.ctxCancel 1, newTimeoutContext 2 T,
               Event.cursorClose 2]
            match drv.closeRes with
            | some e =>
              (.ret (some items) (some (Err.wrap ("Find - Error Closing Cursor") e)),
                evs3 ++ [Event.ctxCancel 2])
            | none => (.ret (some items) none, evs3 ++ [Event.ctxCancel 2])

/-- FindOne from collection.go: validate, translate, then a combined driver
find-one and decode into one fresh allocation. -/
def FindOne (drv : Driver) (c : Collection) (filter : Value) :
    GoResult DecodedItem × List Event :=
  match c.SchemaStruct with
  | none => (.panicked ("reflect: TypeOf nil SchemaStruct"), [Event.validate])
  | some schema =>
    match verifyDataSchema schema filter with
    | some e =>
      (.ret none (some (Err.wrap ("Find - Schema Verification Error") e)),
        [Event.validate])
    | none =>
      match toBSON drv.encode filter with
      | .err e =>
        (.ret none (some (Err.wrap ("Find - BSON Convert Error") e)),
          [Event.validate, Event.translate])
      | .panicked m => (.panicked m, [Event.validate, Event.translate])
      | .ok doc =>
        let pointee := copyInterface schema.type
        let evs := [Event.validate, Event.translate,
                    newTimeoutContext 0 c.Connection.Timeout,
                    Event.driverFindOne 0 doc]
        match drv.findOneDecode doc pointee with
        | .error e =>
          (.ret none (some (Err.wrap ("FindOne Decoding Error") e)),
            evs ++ [Event.ctxCancel 0])
        | .ok v => (.ret (some ⟨0, pointee, v⟩) none, evs ++ [Event.ctxCancel 0])

/-- FindMap from collection.go: reject pointer filters, then reject filters
whose kind is not map, then pass the filter to the driver untranslated and
decode the cursor like Find. -/
def FindMap (drv : Driver) (c : Collection) (filter : Value) :
    GoResult (List DecodedItem) × List Event :=
  if filter.type.kind = GoKind.ptrK then
    (.ret none (some (Err.new ("FindMap - Filter must be a non-pointer map"))),
      [Event.validate])
  else if verifyKind filter.type [GoKind.mapK] = false then
    (.ret none (some (Err.new ("FindMap - Data must be a Map (pointer or non-pointer)"))),
      [Event.validate])
  else
    let T := c.Connection.Timeout
    let evs0 := [Event.validate, newTimeoutContext 0 T, Event.driverFindRaw 0 filter]
    match drv.findRawRes filter with
    | .error e =>
      (.ret none (some (Err.wrap ("FindMap Error") e)), evs0 ++ [Event.ctxCancel 0])
    | .ok docs =>
      match c.SchemaStruct with
      | none =>
        (.panicked ("reflect: TypeOf nil SchemaStruct"), evs0 ++ [Event.ctxCancel 0])
      | some schema =>
        let pointee := copyInterface schema.type
        let evs1 := evs0 ++ [Event.ctxCancel 0, newTimeoutContext 1 T]
        let lr := cursorLoop drv 1 ("FindMap - Cursor Decode Error") pointee docs 0
        match lr.1 with
        | .error e => (.ret none (some e), evs1 ++ lr.2)
        | .ok items =>
          let evs3 := evs1 ++ lr.2 ++
            [Event.cursorNext 1, Event.ctxCancel 1, newTimeoutContext 2 T,
             Event.cursorClose 2]
          match drv.closeRes with
          | some e =>
            (.ret (some items) (some (Err.wrap ("FindMap - Error Closing Cursor") e)),
              evs3 ++ [Event.ctxCancel 2])
          | none => (.ret (some items) none, evs3 ++ [Event.ctxCancel 2])

/-- The fixed dynamic type of the InsertMany argument, a slice of Go
interface values. -/
def interfaceSliceType : GoType := GoType.sliceT ("interface-slice")

/-- The sequential element loop of InsertMany, carrying the element index
for the error message. -/
def insertManyLoop (drv : Driver) (c : Collection) (data : List Value) (i : Nat) :
    GoResult (List InsertOneResult) × List Event :=
  match data with
  | [] => (.ret (some []) none, [])
  | d :: rest =>
    match InsertOne drv c d with
    | (.panicked m, evs) => (.panicked m, evs)
    | (.ret _ (some e), evs) =>
      (.ret none (some (Err.wrap
          ("InsertMany - Error Inserting Data at Index: " ++ toString i) e)), evs)
    | (.ret none none, evs) => (.panicked ("nil InsertOneResult dereference"), evs)
    | (.ret (some r) none, evs) =>
      let rec2 := insertManyLoop drv c rest (i + 1)
      match rec2.1 with
      | .ret (some rs) none => (.ret (some (r :: rs)) none, evs ++ rec2.2)
      | other => (other, evs ++ rec2.2)

/-- InsertMany from collection.go: a kind check on the (always slice-typed)
argument, then strictly sequential InsertOne calls. -/
def InsertMany (drv : Driver) (c : Collection) (data : List Value) :
    GoResult (List InsertOneResult) × List Event :=
  if verifyKind interfaceSliceType [GoKind.arrayK, GoKind.sliceK] = false then
    (.ret none (some (Err.new
        ("InsertMany - Data must be Array or Slice (pointer or non-pointer)"))),
      [Event.validate])
  else
    insertManyLoop drv c data 0

/-- UpdateMany from collection.go: kind checks on both arguments (no schema
verification), wrap the update under a dollar-set key, translate both, then
one driver call. -/
def UpdateMany (drv : Driver) (c : Collection) (filter update : Value) :
    GoResult UpdateResult × List Event :=
  if verifyKind filter.type [GoKind.mapK, GoKind.structK] = false then
    (.ret none (some (Err.new
        ("UpdateMany - Filter-argument must be a Map or Struct (pointer or non-pointer)"))),
      [Event.validate])
  else if verifyKind update.type [GoKind.mapK] = false then
    (.ret none (some (Err.new
        ("UpdateMany - Update-argument must be a Map (pointer or non-pointer)"))),
      [Event.validate])
  else
    let encodedUpdate := Value.setWrapPtr update
    match toBSON drv.encode encodedUpdate with
    | .err e =>
      (.ret none (some (Err.wrap ("UpdateMany - BSON Convert Error for update-argument") e)),
        [Event.validate, Event.translate])
    | .panicked m => (.panicked m, [Event.validate, Event.translate])
    | .ok updateDoc =>
      match toBSON drv.encode filter with
      | .err e =>
        (.ret none (some (Err.wrap ("UpdateMany - BSON Convert Error for filter-argument") e)),
          [Event.validate, Event.translate, Event.translate])
      | .panicked m => (.panicked m, [Event.validate, Event.translate, Event.translate])
      | .ok filterDoc =>
        let evs := [Event.validate, Event.translate, Event.translate,
                    newTimeoutContext 0 c.Connection.Timeout,
                    Event.driverUpdateMany 0 filterDoc updateDoc]
        match drv.updateManyRes filterDoc updateDoc with
        | .error e =>
          (.ret none (some (Err.wrap ("UpdateMany Error") e)), evs ++ [Event.ctxCancel 0])
        | .ok r => (.ret (some r) none, evs ++ [Event.ctxCancel 0])

/-- Aggregate from collection.go: no validation and no translation; the
driver call is issued on a fresh context that is cancelled immediately
after, then the cursor is decoded and closed like Find. -/
def Aggregate (drv : Driver) (c : Collection) (pipeline : Value) :
    GoResult (List DecodedItem) × List Event :=
  let T := c.Connection.Timeout
  let evs0 := [newTimeoutContext 0 T, Event.driverAggregate 0 pipeline, Event.ctxCancel 0]
  match drv.aggregateRes pipeline with
  | .error e => (.ret none (some (Err.wrap ("Aggregate Error") e)), evs0)
  | .ok docs =>
    match c.SchemaStruct with
    | none => (.panicked ("reflect: TypeOf nil SchemaStruct"), evs0)
    | some schema =>
      let pointee := copyInterface schema.type
      let evs1 := evs0 ++ [newTimeoutContext 1 T]
      let lr := cursorLoop drv 1 ("Aggregate - Cursor Decode Error") pointee docs 0
      match lr.1 with
      | .error e => (.ret none (some e), evs1 ++ lr.2)
      | .ok items =>
        let evs3 := evs1 ++ lr.2 ++
          [Event.cursorNext 1, Event.ctxCancel 1, newTimeoutContext 2 T,
           Event.cursorClose 2]
        match drv.closeRes with
        | some e =>
          (.ret (some items) (some (Err.wrap ("Aggregate - Error Closing Cursor") e)),
            evs3 ++ [Event.ctxCancel 2])
        | none => (.ret (some items) none, evs3 ++ [Event.ctxCancel 2])

/-- The claim-level view of star-prefixing a dynamic type: a pointer type
is left alone, a non-pointer type is wrapped in a pointer. -/
def ptrize (t : GoType) : GoType :=
  if t.kind = GoKind.ptrK then t else GoType.ptr t

/-- Well-formedness of a dynamic type as Go reflection produces it: a
non-pointer type never prints a leading star, and a prim constructor never
carries the pointer kind (pointers use the ptr constructor). -/
def GoType.headNotStar : GoType → Bool
  | .ptr _ => true
  | .prim n k => (k ≠ GoKind.ptrK) && !(startsWithStar n)
  | t => !(startsWithStar t.typeString)

theorem startsWithStar_star (s : String) : startsWithStar ("*" ++ s) = true := by
  simp [startsWithStar, String.data_append, List.isPrefixOf]

/-- The string the source computes for the data argument equals the printed
type of the claim-level star-prefixed type. -/
theorem goDataTypeString (t : GoType) (ht : t.headNotStar = true) :
    (if startsWithStar t.typeString then t.typeString else "*" ++ t.typeString)
      = (ptrize t).typeString := by
  cases t with
  | ptr u => simp [ptrize, GoType.kind, GoType.typeString, startsWithStar_star]
  | structT n fs =>
    simp only [GoType.headNotStar, GoType.typeString, Bool.not_eq_true'] at ht
    simp [ptrize, GoType.kind, GoType.typeString, ht]
  | mapT n =>
    simp only [GoType.headNotStar, GoType.typeString, Bool.not_eq_true'] at ht
    simp [ptrize, GoType.kind, GoType.typeString, ht]
  | sliceT n =>
    simp only [GoType.headNotStar, GoType.typeString, Bool.not_eq_true'] at ht
    simp [ptrize, GoType.kind, GoType.typeString, ht]
  | arrayT n =>
    simp only [GoType.headNotStar, GoType.typeString, Bool.not_eq_true'] at ht
    simp [ptrize, GoType.kind, GoType.typeString, ht]
  | prim n k =>
    simp only [GoType.headNotStar, GoType.typeString, Bool.and_eq_true,
      Bool.not_eq_true', decide_eq_true_eq] at ht
    simp [ptrize, GoType.kind, GoType.typeString, ht.1, ht.2]

theorem verifyDataSchema_mismatch (schema x : Value) (hx : x.type.headNotStar = true)
    (h : (ptrize x.type).typeString ≠ schema.type.typeString) :
    verifyDataSchema schema x = some mismatchErr := by
  have hb := goDataTypeString x.type hx
  simp only [verifyDataSchema]
  rw [hb]
  simp [h]

theorem verifyDataSchema_match (schema x : Value) (hx : x.type.headNotStar = true)
    (h : (ptrize x.type).typeString = schema.type.typeString) :
    verifyDataSchema schema x = none := by
  have hb := goDataTypeString x.type hx
  simp only [verifyDataSchema]
  rw [hb]
  simp [h]

/-- The schema struct of the test suite: mongo.item with its bson tags. -/
def itemType : GoType :=
  GoType.structT ("mongo.item")
    [("ID", "_id,omitempty"), ("Word", "word"),
     ("Definition", "definition,omitempty"), ("Hits", "hits,omitempty")]

def itemSchema : Value := Value.base (GoType.ptr itemType) 0

/-- An anonymous struct with a single Mismatch field, as in the tests. -/
def mismatchType : GoType := GoType.structT ("struct-Mismatch-string") [("Mismatch", "")]

def mismatchValue : Value := Value.base mismatchType 1

def mapValue : Value := Value.base mapStringInterfaceType 2

def itemValue : Value := Value.base (GoType.ptr itemType) 3

def sampleConn : ConnectionConfig := ⟨3000⟩

def sampleCollection : Collection :=
  ⟨sampleConn, "lib_test_db", "test_collection", none, some itemSchema⟩

/-- A driver oracle where every operation succeeds. -/
def sampleDriver : Driver where
  encode := fun _ => .ok [("word", BsonValue.str ("w"))]
  insertOneRes := fun _ => .ok ⟨1⟩
  deleteManyRes := fun _ => .ok ⟨2⟩
  updateManyRes := fun _ _ => .ok ⟨2, 1⟩
  findRes := fun _ => .ok []
  findRawRes := fun _ => .ok []
  aggregateRes := fun _ => .ok []
  findOneDecode := fun _ t => .ok (Value.base t 5)
  createIndexRes := fun _ _ => none
  closeRes := none
  decode := fun _ t => .ok (Value.base t 7)

/-- C1: for every Collection and every argument to InsertOne, Find, FindOne
or DeleteMany whose dynamic type, star-prefixed when not already a pointer,
differs from the type of the stored SchemaStruct, the operation returns a
nil result with a non-nil (schema verification) error and the underlying
driver operation is never invoked. -/
theorem C1_schema_mismatch_blocks_driver
    (drv : Driver) (c : Collection) (schema x : Value)
    (hs : c.SchemaStruct = some schema)
    (hx : x.type.headNotStar = true)
    (h : (ptrize x.type).typeString ≠ schema.type.typeString) :
    (InsertOne drv c x =
        (GoResult.ret none (some (Err.wrap ("InsertOne - Schema Verification Error") mismatchErr)),
         [Event.validate])
      ∧ hasDriverCall (InsertOne drv c x).2 = false)
    ∧ (Find drv c x =
        (GoResult.ret none (some (Err.wrap ("Find - Schema Verification Error") mismatchErr)),
         [Event.validate])
      ∧ hasDriverCall (Find drv c x).2 = false)
    ∧ (FindOne drv c x =
        (GoResult.ret none (some (Err.wrap ("Find - Schema Verification Error") mismatchErr)),
         [Event.validate])
      ∧ hasDriverCall (FindOne drv c x).2 = false)
    ∧ (DeleteMany drv c x =
        (GoResult.ret none (some (Err.wrap ("DeleteMany - Schema Verification Error") mismatchErr)),
         [Event.validate])
      ∧ hasDriverCall (DeleteMany drv c x).2 = false) := by
  have hv := verifyDataSchema_mismatch schema x hx h
  refine ⟨⟨?_, ?_⟩, ⟨?_, ?_⟩, ⟨?_, ?_⟩, ?_, ?_⟩ <;>
    simp [InsertOne, Find, FindOne, DeleteMany, hs, hv, hasDriverCall, Event.isDriverCall]

/-- Witness for C1 at the test suite's mismatched anonymous struct. -/
theorem C1_schema_mismatch_blocks_driver_witness :
    InsertOne sampleDriver sampleCollection mismatchValue =
      (GoResult.ret none (some (Err.wrap ("InsertOne - Schema Verification Error") mismatchErr)),
       [Event.validate]) :=
  (C1_schema_mismatch_blocks_driver sampleDriver sampleCollection itemSchema mismatchValue
    rfl (by decide) (by decide)).1.1

/-- Counterexample for C2: a filter whose shape differs from the declared
schema (the test suite's anonymous Mismatch struct against mongo.item)
passes UpdateMany's checks: the driver is invoked and the call returns a
result and no error, contradicting the claim that both arguments are
verified against Collection.SchemaStruct and rejected before the driver
call. -/
theorem C2_counterexample :
    (ptrize mismatchValue.type).typeString ≠ itemSchema.type.typeString
    ∧ sampleCollection.SchemaStruct = some itemSchema
    ∧ hasDriverCall (UpdateMany sampleDriver sampleCollection mismatchValue mapValue).2 = true
    ∧ (UpdateMany sampleDriver sampleCollection mismatchValue mapValue).1
        = GoResult.ret (some ⟨2, 1⟩) none := by
  exact ⟨by decide, rfl, by decide, by decide⟩

/-- C2 as amended: UpdateMany verifies only the reflection kinds of its
arguments (filter: map or struct, update: map, pointers dereferenced) and
never compares them with SchemaStruct; a kind-check failure returns a nil
result and an error before translation and before any driver call, and
kind-valid arguments reach the driver regardless of schema shape. -/
theorem C2_update_many_kind_checks_only
    (drv : Driver) (c : Collection) (filter update : Value) :
    (verifyKind filter.type [GoKind.mapK, GoKind.structK] = false →
      UpdateMany drv c filter update =
        (GoResult.ret none (some (Err.new
            ("UpdateMany - Filter-argument must be a Map or Struct (pointer or non-pointer)"))),
         [Event.validate]))
    ∧ (verifyKind filter.type [GoKind.mapK, GoKind.structK] = true →
        verifyKind update.type [GoKind.mapK] = false →
        UpdateMany drv c filter update =
          (GoResult.ret none (some (Err.new
              ("UpdateMany - Update-argument must be a Map (pointer or non-pointer)"))),
           [Event.validate]))
    ∧ (verifyKind filter.type [GoKind.mapK, GoKind.structK] = true →
        verifyKind update.type [GoKind.mapK] = true →
        ∀ updateDoc filterDoc,
          toBSON drv.encode (Value.setWrapPtr update) = TB.ok updateDoc →
          toBSON drv.encode filter = TB.ok filterDoc →
          Event.driverUpdateMany 0 filterDoc updateDoc ∈ (UpdateMany drv c filter update).2) := by
  refine ⟨fun h1 => ?_, fun h1 h2 => ?_, fun h1 h2 updateDoc filterDoc hu hf => ?_⟩
  · simp [UpdateMany, h1]
  · simp [UpdateMany, h1, h2]
  · simp only [UpdateMany, h1, h2, hu, hf]
    cases drv.updateManyRes filterDoc updateDoc <;> simp

/-- Witness for the amended C2: the schema-mismatching filter reaches the
driver. -/
theorem C2_update_many_kind_checks_only_witness :
    Event.driverUpdateMany 0 [("word", BsonValue.str ("w"))] [("word", BsonValue.str ("w"))]
      ∈ (UpdateMany sampleDriver sampleCollection mismatchValue mapValue).2 :=
  (C2_update_many_kind_checks_only sampleDriver sampleCollection mismatchValue mapValue).2.2
    (by decide) (by decide) _ _ (by decide) (by decide)

theorem ensureIndexLoop_ok (drv : Driver) (cfgs : List IndexConfig)
    (h : ∀ cfg ∈ cfgs,
      drv.createIndexRes (indexKeysDoc cfg.ColumnConfig) (indexOptionsDoc cfg) = none) :
    ensureIndexLoop drv cfgs =
      (none, cfgs.map fun cfg =>
        Event.driverCreateIndex 0 (indexKeysDoc cfg.ColumnConfig) (indexOptionsDoc cfg)) := by
  induction cfgs with
  | nil => rfl
  | cons cfg rest ih =>
    have h0 := h cfg (List.mem_cons_self _ _)
    have hr := ih (fun x hx => h x (List.mem_cons_of_mem _ hx))
    simp [ensureIndexLoop, createIndex, h0, hr]

theorem ensureIndexLoop_err (drv : Driver) (pre : List IndexConfig)
    (bad : IndexConfig) (rest : List IndexConfig) (e : Err)
    (hok : ∀ cfg ∈ pre,
      drv.createIndexRes (indexKeysDoc cfg.ColumnConfig) (indexOptionsDoc cfg) = none)
    (hbad : drv.createIndexRes (indexKeysDoc bad.ColumnConfig) (indexOptionsDoc bad) = some e) :
    ensureIndexLoop drv (pre ++ bad :: rest) =
      (some e, (pre ++ [bad]).map fun cfg =>
        Event.driverCreateIndex 0 (indexKeysDoc cfg.ColumnConfig) (indexOptionsDoc cfg)) := by
  induction pre with
  | nil => simp [ensureIndexLoop, createIndex, hbad]
  | cons cfg pre2 ih =>
    have h0 := hok cfg (List.mem_cons_self _ _)
    have hr := ih (fun x hx => hok x (List.mem_cons_of_mem _ hx))
    simp [ensureIndexLoop, createIndex, h0, hr]

/-- C3: for a valid Collection with a non-nil Indexes slice, EnsureCollection
issues exactly one index-creation driver call per IndexConfig in slice
order; the keys document maps each column, in column order, to minus one
when descending and one otherwise; the options document carries unique
equal to IsUnique and a name entry exactly when the config names the index;
and the first driver error aborts the loop and is returned unwrapped. -/
theorem C3_ensure_collection_indexes
    (drv : Driver) (c : Collection) (schema : Value) (cfgs : List IndexConfig)
    (hs : c.SchemaStruct = some schema)
    (hvs : verifySchemaStruct (some schema) = none)
    (hidx : c.Indexes = some cfgs)
    (hvk : verifyIndexKeys schema cfgs = none) :
    ((∀ cfg ∈ cfgs,
        drv.createIndexRes (indexKeysDoc cfg.ColumnConfig) (indexOptionsDoc cfg) = none) →
      EnsureCollection drv (some c) =
        (GoResult.ret (some c) none,
         [Event.getCollectionHandle c.Database c.Name,
          Event.ctxCreate 0 c.Connection.Timeout]
           ++ (cfgs.map fun cfg =>
                Event.driverCreateIndex 0
                  (cfg.ColumnConfig.map fun col =>
                    (col.Name, BsonValue.i32 (if col.IsDescOrder then (-1 : Int) else 1)))
                  ([("unique", BsonValue.boolean cfg.IsUnique)] ++
                    (if cfg.Name ≠ "" then [("name", BsonValue.str cfg.Name)] else [])))
           ++ [Event.ctxCancel 0]))
    ∧ (∀ cfg : IndexConfig,
        docLookup (indexOptionsDoc cfg) ("unique") = some (BsonValue.boolean cfg.IsUnique)
        ∧ (cfg.Name ≠ "" → docLookup (indexOptionsDoc cfg) ("name") = some (BsonValue.str cfg.Name))
        ∧ (cfg.Name = "" → docLookup (indexOptionsDoc cfg) ("name") = none))
    ∧ (∀ (pre : List IndexConfig) (bad : IndexConfig) (rest : List IndexConfig) (e : Err),
        cfgs = pre ++ bad :: rest →
        (∀ cfg ∈ pre,
          drv.createIndexRes (indexKeysDoc cfg.ColumnConfig) (indexOptionsDoc cfg) = none) →
        drv.createIndexRes (indexKeysDoc bad.ColumnConfig) (indexOptionsDoc bad) = some e →
        EnsureCollection drv (some c) =
          (GoResult.ret none (some e),
           [Event.getCollectionHandle c.Database c.Name,
            Event.ctxCreate 0 c.Connection.Timeout]
             ++ ((pre ++ [bad]).map fun cfg =>
                  Event.driverCreateIndex 0 (indexKeysDoc cfg.ColumnConfig) (indexOptionsDoc cfg))
             ++ [Event.ctxCancel 0, Event.ctxCancel 0])) := by
  have huniq : ("unique" : String) ≠ "name" := by decide
  refine ⟨fun hok => ?_, fun cfg => ⟨?_, fun hn => ?_, fun hn => ?_⟩, ?_⟩
  · have hl := ensureIndexLoop_ok drv cfgs hok
    simp only [EnsureCollection, hs, hvs, hidx, Option.getD_some, hvk, hl, newTimeoutContext]
    simp [indexKeysDoc, indexOptionsDoc]
  · simp [indexOptionsDoc, docLookup]
  · simp [indexOptionsDoc, docLookup, hn, huniq]
  · simp [indexOptionsDoc, docLookup, hn, huniq]
  · intro pre bad rest e hsplit hok hbad
    have hl := ensureIndexLoop_err drv pre bad rest e hok hbad
    rw [hsplit] at hvk
    simp only [EnsureCollection, hs, hvs, hidx, Option.getD_some, hvk, hsplit, hl,
      newTimeoutContext]

def indexCfg1 : IndexConfig :=
  ⟨[⟨"word", true⟩, ⟨"definition", false⟩], true, "test_index1"⟩

def indexCfg2 : IndexConfig := ⟨[⟨"definition", false⟩], false, "test_index2"⟩

def indexedCollection : Collection :=
  ⟨sampleConn, "lib_test_db", "test_collection", some [indexCfg1, indexCfg2], some itemSchema⟩

/-- Witness for C3 at the two test-suite index configs. -/
theorem C3_ensure_collection_indexes_witness :
    EnsureCollection sampleDriver (some indexedCollection) =
      (GoResult.ret (some indexedCollection) none,
       [Event.getCollectionHandle ("lib_test_db") ("test_collection"),
        Event.ctxCreate 0 3000,
        Event.driverCreateIndex 0
          [("word", BsonValue.i32 (-1)), ("definition", BsonValue.i32 1)]
          [("unique", BsonValue.boolean true), ("name", BsonValue.str ("test_index1"))],
        Event.driverCreateIndex 0
          [("definition", BsonValue.i32 1)]
          [("unique", BsonValue.boolean false), ("name", BsonValue.str ("test_index2"))],
        Event.ctxCancel 0]) :=
  (C3_ensure_collection_indexes sampleDriver indexedCollection itemSchema
    [indexCfg1, indexCfg2] rfl (by decide) rfl (by decide)).1 (fun _ _ => rfl)

theorem findBadColumn_eq_none (keys : List String) (cols : List IndexColumnConfig)
    (h : findBadColumn keys cols = none) :
    ∀ col ∈ cols, keys.contains col.Name = true := by
  induction cols with
  | nil => intro col hc; cases hc
  | cons c rest ih =>
    intro col hc
    by_cases hk : keys.contains c.Name = true
    · simp only [findBadColumn] at h
      rw [if_pos hk] at h
      rcases List.mem_cons.mp hc with hceq | hcr
      · rw [hceq]; exact hk
      · exact ih h col hcr
    · simp only [findBadColumn] at h
      rw [if_neg hk] at h
      cases h

theorem firstBadIndexKey_of_bad (keys : List String) (cfgs : List IndexConfig)
    (cfg : IndexConfig) (col : IndexColumnConfig)
    (h1 : cfg ∈ cfgs) (h2 : col ∈ cfg.ColumnConfig)
    (hbad : keys.contains col.Name = false) :
    ∃ n, firstBadIndexKey keys cfgs = some n := by
  induction cfgs with
  | nil => cases h1
  | cons c rest ih =>
    cases hfb : findBadColumn keys c.ColumnConfig with
    | some n => exact ⟨n, by simp [firstBadIndexKey, hfb]⟩
    | none =>
      rcases List.mem_cons.mp h1 with hceq | hcr
      · subst hceq
        have := findBadColumn_eq_none keys cfg.ColumnConfig hfb col h2
        rw [this] at hbad
        cases hbad
      · obtain ⟨n, hn⟩ := ih hcr
        exact ⟨n, by simp [firstBadIndexKey, hfb, hn]⟩

/-- C4: EnsureCollection rejects a nil argument, a nil SchemaStruct, a
SchemaStruct that is not a pointer to a struct, and an index column whose
name is not among the bson tag names of the schema fields, returning a nil
collection and an error with no driver call, no collection handle and no
index creation (the trace is empty). -/
theorem C4_ensure_collection_invalid_args (drv : Driver) (copt : Option Collection)
    (h : copt = none
      ∨ ∃ c, copt = some c ∧
        (c.SchemaStruct = none
         ∨ (∃ v, c.SchemaStruct = some v ∧
             (v.type.kind ≠ GoKind.ptrK ∨ v.type.elemType.kind ≠ GoKind.structK))
         ∨ (∃ v cfg col, c.SchemaStruct = some v ∧ cfg ∈ c.Indexes.getD []
             ∧ col ∈ cfg.ColumnConfig
             ∧ (collectionKeys v.type.elemType).contains col.Name = false))) :
    ∃ e, EnsureCollection drv copt = (GoResult.ret none (some e), []) := by
  rcases h with hnil | ⟨c, hc, hcase⟩
  · subst hnil
    exact ⟨Err.new ("Collection argument cannot be nil"), rfl⟩
  subst hc
  rcases hcase with hss | ⟨v, hv, hbad⟩ | ⟨v, cfg, col, hv, hcfg, hcol, hbad⟩
  · refine ⟨Err.wrap ("Schema Verification Error") (Err.new ("SchemaStruct cannot be nil")), ?_⟩
    simp [EnsureCollection, verifySchemaStruct, hss]
  · have hvs : verifySchemaStruct c.SchemaStruct
        = some (Err.new ("SchemaStruct needs to be a pointer to struct")) := by
      rw [hv]
      by_cases hk : v.type.kind = GoKind.ptrK
      · rcases hbad with hb | hb
        · exact absurd hk hb
        · simp [verifySchemaStruct, hk, hb]
      · simp [verifySchemaStruct, hk]
    refine ⟨Err.wrap ("Schema Verification Error")
      (Err.new ("SchemaStruct needs to be a pointer to struct")), ?_⟩
    simp [EnsureCollection, hvs]
  · cases hvs : verifySchemaStruct c.SchemaStruct with
    | some e =>
      exact ⟨Err.wrap ("Schema Verification Error") e, by simp [EnsureCollection, hvs]⟩
    | none =>
      obtain ⟨n, hn⟩ :=
        firstBadIndexKey_of_bad (collectionKeys v.type.elemType) (c.Indexes.getD [])
          cfg col hcfg hcol hbad
      have hvk : verifyIndexKeys v (c.Indexes.getD [])
          = some (Err.new ("Error: IndexKey: " ++ n ++ " not found in specified collection-keys")) := by
        simp [verifyIndexKeys, hn]
      rw [hv] at hvs
      refine ⟨Err.wrap ("Index-Keys Validation Error")
        (Err.new ("Error: IndexKey: " ++ n ++ " not found in specified collection-keys")), ?_⟩
      simp [EnsureCollection, hvs, hv, hvk]

def badColumn : IndexColumnConfig := ⟨"invalid-column", true⟩

def badIndexCfg : IndexConfig := ⟨[badColumn], true, "test_index"⟩

def badIndexCollection : Collection :=
  ⟨sampleConn, "test", "test_coll", some [badIndexCfg], some itemSchema⟩

/-- Witness for C4 at the test suite's invalid-column index config. -/
theorem C4_ensure_collection_invalid_args_witness :
    ∃ e, EnsureCollection sampleDriver (some badIndexCollection)
      = (GoResult.ret none (some e), []) :=
  C4_ensure_collection_invalid_args sampleDriver (some badIndexCollection)
    (Or.inr ⟨badIndexCollection, rfl,
      Or.inr (Or.inr ⟨itemSchema, badIndexCfg, badColumn, rfl, by decide, by decide, by decide⟩)⟩)

theorem docLookup_docDelete_ne (d : BsonDoc) (key k : String) (h : k ≠ key) :
    docLookup (docDelete d key) k = docLookup d k := by
  have hkey : key ≠ k := fun hc => h hc.symm
  induction d with
  | nil => rfl
  | cons p rest ih =>
    obtain ⟨k2, v⟩ := p
    by_cases hk : k2 = key
    · subst hk
      simp [docDelete, docLookup, hkey]
    · by_cases hk2 : k2 = k
      · subst hk2
        simp [docDelete, docLookup, hk, h]
      · simp [docDelete, docLookup, hk, hk2, ih]

def strIdDoc : BsonDoc := [("_id", BsonValue.str ("abc"))]

def strIdEncoder : Value → Except Err BsonDoc := fun _ => .ok strIdDoc

/-- Counterexample for C8: an encoding that succeeds and carries a
non-ObjectID id field.  The claim requires the document to be returned as
encoded (the id is not the zero ObjectID), but toBSON runs into the driver
panic of bson.Value.ObjectID instead of returning the document. -/
theorem C8_counterexample :
    strIdEncoder itemValue = Except.ok strIdDoc
    ∧ docLookup strIdDoc ("_id") = some (BsonValue.str ("abc"))
    ∧ toBSON strIdEncoder itemValue ≠ TB.ok strIdDoc
    ∧ toBSON strIdEncoder itemValue
        = TB.panicked ("bson: Value.ObjectID on non-ObjectID value") :=
  ⟨rfl, by decide, by decide, by decide⟩

/-- C8 as amended: when the BSON encoding succeeds and the encoded id
field, if present, is an ObjectID, toBSON removes the id exactly when that
ObjectID prints as the zero ObjectID and otherwise leaves the document as
encoded; every key other than the id is unchanged in any returned document.
A present non-ObjectID id makes the driver's Value.ObjectID panic instead. -/
theorem C8_tobson_zero_id_removal
    (encode : Value → Except Err BsonDoc) (data : Value) (doc : BsonDoc)
    (henc : encode data = Except.ok doc) :
    (docLookup doc ("_id") = none → toBSON encode data = TB.ok doc)
    ∧ (∀ bs, docLookup doc ("_id") = some (BsonValue.objectID bs) →
        toBSON encode data =
          TB.ok (if objectIDString bs = zeroObjectIDString
                 then docDelete doc ("_id") else doc))
    ∧ (∀ d2, toBSON encode data = TB.ok d2 →
        ∀ k, k ≠ "_id" → docLookup d2 k = docLookup doc k) := by
  refine ⟨fun hid => ?_, fun bs hid => ?_, fun d2 hd2 k hk => ?_⟩
  · simp [toBSON, henc, hid]
  · by_cases hz : objectIDString bs = zeroObjectIDString <;>
      simp [toBSON, henc, hid, hz]
  · revert hd2
    simp only [toBSON, henc]
    cases hl : docLookup doc ("_id") with
    | none =>
      simp only [TB.ok.injEq]
      intro hd2
      rw [← hd2]
    | some v =>
      cases v with
      | objectID bs =>
        by_cases hz : objectIDString bs = zeroObjectIDString
        · simp only [hz, eq_self_iff_true, if_true, TB.ok.injEq]
          intro hd2
          rw [← hd2]
          exact docLookup_docDelete_ne doc ("_id") k hk
        · simp only [hz, if_false, TB.ok.injEq]
          intro hd2
          rw [← hd2]
      | str s => simp
      | i32 n => simp
      | boolean b => simp

def zeroIdBytes : List Nat := List.replicate 12 0

def zeroIdDoc : BsonDoc :=
  [("_id", BsonValue.objectID zeroIdBytes), ("word", BsonValue.str ("w"))]

def zeroIdEncoder : Value → Except Err BsonDoc := fun _ => .ok zeroIdDoc

/-- Witness for the amended C8: a zero ObjectID id field is removed. -/
theorem C8_tobson_zero_id_removal_witness :
    toBSON zeroIdEncoder itemValue =
      TB.ok (if objectIDString zeroIdBytes = zeroObjectIDString
             then docDelete zeroIdDoc ("_id") else zeroIdDoc) :=
  (C8_tobson_zero_id_removal zeroIdEncoder itemValue zeroIdDoc rfl).2.1 zeroIdBytes (by decide)

/-- C10: FindMap rejects, without any driver call, every pointer filter
(including a pointer to a map: the first check fires before the second,
pointer-dereferencing one can accept it) and every non-pointer filter that
is not a map; a non-pointer map filter always reaches the driver. -/
theorem C10_findmap_filter_kinds (drv : Driver) (c : Collection) (filter : Value) :
    (filter.type.kind = GoKind.ptrK →
      FindMap drv c filter =
        (GoResult.ret none (some (Err.new ("FindMap - Filter must be a non-pointer map"))),
         [Event.validate]))
    ∧ (filter.type.kind ≠ GoKind.ptrK → filter.type.kind ≠ GoKind.mapK →
      FindMap drv c filter =
        (GoResult.ret none (some (Err.new ("FindMap - Data must be a Map (pointer or non-pointer)"))),
         [Event.validate]))
    ∧ (filter.type.kind ≠ GoKind.ptrK → filter.type.kind = GoKind.mapK →
      Event.driverFindRaw 0 filter ∈ (FindMap drv c filter).2) := by
  refine ⟨fun h1 => ?_, fun h1 h2 => ?_, fun h1 h2 => ?_⟩
  · simp [FindMap, h1]
  · have hv : verifyKind filter.type [GoKind.mapK] = false := by
      simp [verifyKind, h1, h2]
    simp [FindMap, h1, hv]
  · have hv : verifyKind filter.type [GoKind.mapK] = true := by
      simp [verifyKind, h1, h2]
    unfold FindMap
    rw [if_neg h1, if_neg (by simp [hv])]
    cases hr : drv.findRawRes filter with
    | error e => simp
    | ok docs =>
      cases hs : c.SchemaStruct with
      | none => simp
      | some schema =>
        cases hlp : (cursorLoop drv 1 ("FindMap - Cursor Decode Error")
            (copyInterface schema.type) docs 0).1 with
        | error e => simp [hlp]
        | ok items => cases hc : drv.closeRes <;> simp [hlp, hc]

/-- Witness for C10: a non-pointer map filter reaches the driver. -/
theorem C10_findmap_filter_kinds_witness :
    Event.driverFindRaw 0 mapValue ∈ (FindMap sampleDriver sampleCollection mapValue).2 :=
  (C10_findmap_filter_kinds sampleDriver sampleCollection mapValue).2.2 (by decide) (by decide)

/-- The documents handed to the driver insert operation, in call order. -/
def insertedDocs (evs : List Event) : List BsonDoc :=
  evs.filterMap (fun ev => match ev with
    | Event.driverInsertOne _ d => some d
    | _ => none)

theorem insertOne_driver_events (drv : Driver) (c : Collection) (d : Value) :
    ∀ ev ∈ (InsertOne drv c d).2, Event.isDriverCall ev = true →
      ∃ doc, ev = Event.driverInsertOne 0 doc := by
  intro ev hev hdc
  cases hs : c.SchemaStruct with
  | none =>
    simp only [InsertOne, hs, List.mem_singleton] at hev
    simp [hev, Event.isDriverCall] at hdc
  | some schema =>
    cases hvd : verifyDataSchema schema d with
    | some e =>
      simp only [InsertOne, hs, hvd, List.mem_singleton] at hev
      simp [hev, Event.isDriverCall] at hdc
    | none =>
      cases htb : toBSON drv.encode d with
      | err e =>
        simp only [InsertOne, hs, hvd, htb, List.mem_cons, List.not_mem_nil, or_false] at hev
        rcases hev with h | h <;> simp [h, Event.isDriverCall] at hdc
      | panicked m =>
        simp only [InsertOne, hs, hvd, htb, List.mem_cons, List.not_mem_nil, or_false] at hev
        rcases hev with h | h <;> simp [h, Event.isDriverCall] at hdc
      | ok doc =>
        cases hio : drv.insertOneRes doc with
        | error e =>
          simp only [InsertOne, hs, hvd, htb, hio, newTimeoutContext] at hev
          simp only [List.append_assoc, List.cons_append, List.nil_append,
            List.mem_cons, List.not_mem_nil, or_false] at hev
          rcases hev with h | h | h | h | h <;>
            first
            | exact ⟨doc, h⟩
            | simp [h, Event.isDriverCall] at hdc
        | ok r =>
          simp only [InsertOne, hs, hvd, htb, hio, newTimeoutContext] at hev
          simp only [List.append_assoc, List.cons_append, List.nil_append,
            List.mem_cons, List.not_mem_nil, or_false] at hev
          rcases hev with h | h | h | h | h <;>
            first
            | exact ⟨doc, h⟩
            | simp [h, Event.isDriverCall] at hdc

theorem insertManyLoop_driver_events (drv : Driver) (c : Collection)
    (data : List Value) (i : Nat) :
    ∀ ev ∈ (insertManyLoop drv c data i).2, Event.isDriverCall ev = true →
      ∃ doc, ev = Event.driverInsertOne 0 doc := by
  induction data generalizing i with
  | nil => intro ev hev; cases hev
  | cons d rest ih =>
    intro ev hev hdc
    rcases hI : InsertOne drv c d with ⟨r, evs1⟩
    have hone : ∀ x ∈ evs1, Event.isDriverCall x = true →
        ∃ doc, x = Event.driverInsertOne 0 doc := by
      intro x hx hdx
      exact insertOne_driver_events drv c d x (by rw [hI]; exact hx) hdx
    cases r with
    | panicked m =>
      simp only [insertManyLoop, hI] at hev
      exact hone ev hev hdc
    | ret val err =>
      cases err with
      | some e =>
        simp only [insertManyLoop, hI] at hev
        exact hone ev hev hdc
      | none =>
        cases val with
        | none =>
          simp only [insertManyLoop, hI] at hev
          exact hone ev hev hdc
        | some r0 =>
          rcases hrec : insertManyLoop drv c rest (i + 1) with ⟨rr, evs2⟩
          have hih : ∀ x ∈ evs2, Event.isDriverCall x = true →
              ∃ doc, x = Event.driverInsertOne 0 doc := by
            intro x hx hdx
            exact ih (i + 1) x (by rw [hrec]; exact hx) hdx
          simp only [insertManyLoop, hI, hrec] at hev
          cases rr with
          | panicked m =>
            simp only [List.mem_append] at hev
            rcases hev with h | h
            · exact hone ev h hdc
            · exact hih ev h hdc
          | ret v2 e2 =>
            rcases v2 with _ | v3 <;> rcases e2 with _ | e3 <;>
              (simp only [List.mem_append] at hev
               rcases hev with h | h
               · exact hone ev h hdc
               · exact hih ev h hdc)

theorem insertManyLoop_ok (drv : Driver) (c : Collection) (schema : Value)
    (data : List Value) (D : Value → BsonDoc) (R : Value → InsertOneResult) (i : Nat)
    (hs : c.SchemaStruct = some schema)
    (h1 : ∀ d ∈ data, verifyDataSchema schema d = none)
    (h2 : ∀ d ∈ data, toBSON drv.encode d = TB.ok (D d))
    (h3 : ∀ d ∈ data, drv.insertOneRes (D d) = Except.ok (R d)) :
    (insertManyLoop drv c data i).1 = GoResult.ret (some (data.map R)) none
    ∧ insertedDocs (insertManyLoop drv c data i).2 = data.map D := by
  induction data generalizing i with
  | nil => exact ⟨rfl, rfl⟩
  | cons d rest ih =>
    have hins : InsertOne drv c d =
        (GoResult.ret (some (R d)) none,
         [Event.validate, Event.translate, newTimeoutContext 0 c.Connection.Timeout,
          Event.driverInsertOne 0 (D d), Event.ctxCancel 0]) := by
      simp [InsertOne, hs, h1 d (by simp), h2 d (by simp), h3 d (by simp)]
    obtain ⟨ihr, ihe⟩ := ih (i + 1)
      (fun x hx => h1 x (by simp [hx]))
      (fun x hx => h2 x (by simp [hx]))
      (fun x hx => h3 x (by simp [hx]))
    rcases hrec : insertManyLoop drv c rest (i + 1) with ⟨rr, evs2⟩
    rw [hrec] at ihr ihe
    simp only at ihr ihe
    constructor
    · simp [insertManyLoop, hins, hrec, ihr]
    · simp only [insertManyLoop, hins, hrec, ihr]
      simp only [insertedDocs] at ihe ⊢
      simp [newTimeoutContext, ihe]

theorem insertManyLoop_err (drv : Driver) (c : Collection) (schema : Value)
    (pre : List Value) (bad : Value) (rest : List Value)
    (D : Value → BsonDoc) (R : Value → InsertOneResult) (i : Nat) (e : Err)
    (hs : c.SchemaStruct = some schema)
    (h1 : ∀ d ∈ pre, verifyDataSchema schema d = none)
    (h2 : ∀ d ∈ pre, toBSON drv.encode d = TB.ok (D d))
    (h3 : ∀ d ∈ pre, drv.insertOneRes (D d) = Except.ok (R d))
    (hbad : (InsertOne drv c bad).1 = GoResult.ret none (some e)) :
    (insertManyLoop drv c (pre ++ bad :: rest) i).1
      = GoResult.ret none (some (Err.wrap
          ("InsertMany - Error Inserting Data at Index: " ++ toString (i + pre.length)) e))
    ∧ (insertedDocs (insertManyLoop drv c (pre ++ bad :: rest) i).2).take pre.length
        = pre.map D := by
  induction pre generalizing i with
  | nil =>
    rcases hI : InsertOne drv c bad with ⟨r, evs1⟩
    rw [hI] at hbad
    simp only at hbad
    subst hbad
    constructor
    · simp [insertManyLoop, hI]
    · simp
  | cons p pre2 ih =>
    have hins : InsertOne drv c p =
        (GoResult.ret (some (R p)) none,
         [Event.validate, Event.translate, newTimeoutContext 0 c.Connection.Timeout,
          Event.driverInsertOne 0 (D p), Event.ctxCancel 0]) := by
      simp [InsertOne, hs, h1 p (by simp), h2 p (by simp), h3 p (by simp)]
    obtain ⟨ihr, ihe⟩ := ih (i + 1)
      (fun x hx => h1 x (by simp [hx]))
      (fun x hx => h2 x (by simp [hx]))
      (fun x hx => h3 x (by simp [hx]))
    rcases hrec : insertManyLoop drv c (pre2 ++ bad :: rest) (i + 1) with ⟨rr, evs2⟩
    rw [hrec] at ihr ihe
    simp only at ihr ihe
    have hidx : i + 1 + pre2.length = i + (pre2.length + 1) := by omega
    constructor
    · rw [hidx] at ihr
      simp [insertManyLoop, hins, hrec, ihr]
    · simp only [insertManyLoop, hins, List.append_eq]
      rw [hrec, ihr]
      simp only [insertedDocs] at ihe ⊢
      simp [newTimeoutContext, List.take_succ_cons, ihe]

/-- C9: InsertMany's leading kind check always accepts its argument (the
parameter type is a slice, so the rejection of non-array, non-slice
arguments never fires); elements are inserted strictly sequentially in
slice order via InsertOne; the first failing element aborts with an error
naming that element's index, leaving the elements before it already
inserted and issuing no other kind of driver call (no rollback); on full
success exactly one InsertOneResult per element is returned in insertion
order. -/
theorem C9_insert_many_sequential
    (drv : Driver) (c : Collection) (schema : Value)
    (D : Value → BsonDoc) (R : Value → InsertOneResult)
    (hs : c.SchemaStruct = some schema) :
    (verifyKind interfaceSliceType [GoKind.arrayK, GoKind.sliceK] = true)
    ∧ (∀ data : List Value,
        (∀ d ∈ data, verifyDataSchema schema d = none) →
        (∀ d ∈ data, toBSON drv.encode d = TB.ok (D d)) →
        (∀ d ∈ data, drv.insertOneRes (D d) = Except.ok (R d)) →
        (InsertMany drv c data).1 = GoResult.ret (some (data.map R)) none
        ∧ insertedDocs (InsertMany drv c data).2 = data.map D)
    ∧ (∀ (pre : List Value) (bad : Value) (rest : List Value) (e : Err),
        (∀ d ∈ pre, verifyDataSchema schema d = none) →
        (∀ d ∈ pre, toBSON drv.encode d = TB.ok (D d)) →
        (∀ d ∈ pre, drv.insertOneRes (D d) = Except.ok (R d)) →
        (InsertOne drv c bad).1 = GoResult.ret none (some e) →
        (InsertMany drv c (pre ++ bad :: rest)).1
          = GoResult.ret none (some (Err.wrap
              ("InsertMany - Error Inserting Data at Index: " ++ toString pre.length) e))
        ∧ (insertedDocs (InsertMany drv c (pre ++ bad :: rest)).2).take pre.length
            = pre.map D)
    ∧ (∀ data : List Value, ∀ ev ∈ (InsertMany drv c data).2,
        Event.isDriverCall ev = true → ∃ doc, ev = Event.driverInsertOne 0 doc) := by
  have hguard : ∀ data : List Value, InsertMany drv c data = insertManyLoop drv c data 0 := by
    intro data
    simp [InsertMany, verifyKind, interfaceSliceType, GoType.kind, GoType.elemType]
  refine ⟨by decide, fun data h1 h2 h3 => ?_,
    fun pre bad rest e h1 h2 h3 hbad => ?_, fun data ev hev hdc => ?_⟩
  · rw [hguard]
    exact insertManyLoop_ok drv c schema data D R 0 hs h1 h2 h3
  · rw [hguard]
    have hr := insertManyLoop_err drv c schema pre bad rest D R 0 e hs h1 h2 h3 hbad
    simpa using hr
  · rw [hguard] at hev
    exact insertManyLoop_driver_events drv c data 0 ev hev hdc

/-- Witness for C9: one good element, then a schema-mismatching element;
the error names index one and the first insert went through. -/
theorem C9_insert_many_sequential_witness :
    (InsertMany sampleDriver sampleCollection [itemValue, mismatchValue]).1
      = GoResult.ret none (some (Err.wrap
          ("InsertMany - Error Inserting Data at Index: " ++ toString (1 : Nat))
          (Err.wrap ("InsertOne - Schema Verification Error") mismatchErr)))
    ∧ (insertedDocs (InsertMany sampleDriver sampleCollection [itemValue, mismatchValue]).2).take 1
      = [[("word", BsonValue.str ("w"))]] :=
  (C9_insert_many_sequential sampleDriver sampleCollection itemSchema
      (fun _ => [("word", BsonValue.str ("w"))]) (fun _ => ⟨1⟩) rfl).2.2.1
    [itemValue] mismatchValue []
    (Err.wrap ("InsertOne - Schema Verification Error") mismatchErr)
    (fun d hd => by rw [List.mem_singleton] at hd; subst hd; decide)
    (fun d hd => by rw [List.mem_singleton] at hd; subst hd; decide)
    (fun d hd => by rw [List.mem_singleton] at hd; subst hd; rfl)
    (by decide)

/-- The claim-side description of the cursor result: one element per
document in cursor order, each carrying a fresh address (counting up from
the given start), the allocated pointee type, and the decoded value of its
document. -/
def freshItems (pointee : GoType) (f : BsonDoc → Value) (docs : List BsonDoc) (addr : Nat) :
    List DecodedItem :=
  match docs with
  | [] => []
  | d :: rest => ⟨addr, pointee, f d⟩ :: freshItems pointee f rest (addr + 1)

theorem freshItems_length (pointee : GoType) (f : BsonDoc → Value)
    (docs : List BsonDoc) (addr : Nat) :
    (freshItems pointee f docs addr).length = docs.length := by
  induction docs generalizing addr with
  | nil => rfl
  | cons d rest ih => simp [freshItems, ih]

theorem freshItems_getElem (pointee : GoType) (f : BsonDoc → Value)
    (docs : List BsonDoc) (addr : Nat) (i : Nat) :
    (freshItems pointee f docs addr)[i]?
      = (docs[i]?).map (fun d => ⟨addr + i, pointee, f d⟩) := by
  induction docs generalizing addr i with
  | nil => simp [freshItems]
  | cons d rest ih =>
    cases i with
    | zero => simp [freshItems]
    | succ j =>
      simp only [freshItems, List.getElem?_cons_succ, ih]
      have : addr + 1 + j = addr + (j + 1) := by omega
      rw [this]

theorem freshItems_addr_ge (pointee : GoType) (f : BsonDoc → Value)
    (docs : List BsonDoc) (addr : Nat) :
    ∀ it ∈ freshItems pointee f docs addr, addr ≤ it.addr := by
  induction docs generalizing addr with
  | nil => intro it h; cases h
  | cons d rest ih =>
    intro it h
    rcases List.mem_cons.mp h with h0 | h1
    · rw [h0]
    · exact Nat.le_trans (Nat.le_succ addr) (ih (addr + 1) it h1)

theorem freshItems_addr_nodup (pointee : GoType) (f : BsonDoc → Value)
    (docs : List BsonDoc) (addr : Nat) :
    ((freshItems pointee f docs addr).map DecodedItem.addr).Nodup := by
  induction docs generalizing addr with
  | nil => simp [freshItems]
  | cons d rest ih =>
    simp only [freshItems, List.map_cons, List.nodup_cons]
    refine ⟨?_, ih (addr + 1)⟩
    intro hmem
    rcases List.mem_map.mp hmem with ⟨it, hit, haddr⟩
    have := freshItems_addr_ge pointee f rest (addr + 1) it hit
    omega

theorem cursorLoop_ok (drv : Driver) (ctxId : Nat) (wrapMsg : String) (pointee : GoType)
    (docs : List BsonDoc) (addr : Nat) (f : BsonDoc → Value)
    (h : ∀ d ∈ docs, drv.decode d pointee = Except.ok (f d)) :
    cursorLoop drv ctxId wrapMsg pointee docs addr
      = (Except.ok (freshItems pointee f docs addr),
         docs.flatMap (fun d => [Event.cursorNext ctxId, Event.cursorDecode d])) := by
  induction docs generalizing addr with
  | nil => rfl
  | cons d rest ih =>
    have h0 := h d (List.mem_cons_self _ _)
    have hr := ih (addr + 1) (fun x hx => h x (List.mem_cons_of_mem _ hx))
    simp [cursorLoop, h0, hr, freshItems]

theorem cursorLoop_err (drv : Driver) (ctxId : Nat) (wrapMsg : String) (pointee : GoType)
    (pre : List BsonDoc) (bad : BsonDoc) (rest : List BsonDoc) (addr : Nat)
    (f : BsonDoc → Value) (e : Err)
    (hok : ∀ d ∈ pre, drv.decode d pointee = Except.ok (f d))
    (hbad : drv.decode bad pointee = Except.error e) :
    cursorLoop drv ctxId wrapMsg pointee (pre ++ bad :: rest) addr
      = (Except.error (Err.wrap wrapMsg e),
         (pre.flatMap (fun d => [Event.cursorNext ctxId, Event.cursorDecode d]))
           ++ [Event.cursorNext ctxId, Event.cursorDecode bad, Event.ctxCancel ctxId]) := by
  induction pre generalizing addr with
  | nil => simp [cursorLoop, hbad]
  | cons p pre2 ih =>
    have h0 := hok p (List.mem_cons_self _ _)
    have hr := ih (addr + 1) (fun x hx => hok x (List.mem_cons_of_mem _ hx))
    simp [cursorLoop, h0, hr]

/-- C6: on a successful Find, FindMap or Aggregate whose cursor yields the
documents docs, the result is a present (non-nil) list of exactly one
element per document in cursor order, each a freshly allocated pointer
(pairwise distinct addresses) to a new value of the SchemaStruct's pointee
type decoded from the corresponding document — an empty cursor gives a
present empty list — while a decode error on any document makes the
operation return nil and the wrapped decode error. -/
theorem C6_cursor_results :
    (∀ (drv : Driver) (c : Collection) (schema filter : Value) (doc : BsonDoc)
        (docs : List BsonDoc) (f : BsonDoc → Value),
      c.SchemaStruct = some schema →
      verifyDataSchema schema filter = none →
      toBSON drv.encode filter = TB.ok doc →
      drv.findRes doc = Except.ok docs →
      (∀ d ∈ docs, drv.decode d (copyInterface schema.type) = Except.ok (f d)) →
      drv.closeRes = none →
      ∃ items, (Find drv c filter).1 = GoResult.ret (some items) none
        ∧ items.length = docs.length
        ∧ (∀ i : Nat, items[i]?
            = (docs[i]?).map (fun d => ⟨i, copyInterface schema.type, f d⟩))
        ∧ (items.map DecodedItem.addr).Nodup)
    ∧ (∀ (drv : Driver) (c : Collection) (schema filter : Value) (doc : BsonDoc)
        (pre : List BsonDoc) (bad : BsonDoc) (rest : List BsonDoc)
        (f : BsonDoc → Value) (e : Err),
      c.SchemaStruct = some schema →
      verifyDataSchema schema filter = none →
      toBSON drv.encode filter = TB.ok doc →
      drv.findRes doc = Except.ok (pre ++ bad :: rest) →
      (∀ d ∈ pre, drv.decode d (copyInterface schema.type) = Except.ok (f d)) →
      drv.decode bad (copyInterface schema.type) = Except.error e →
      (Find drv c filter).1
        = GoResult.ret none (some (Err.wrap ("Find - Cursor Decode Error") e)))
    ∧ (∀ (drv : Driver) (c : Collection) (schema filter : Value)
        (docs : List BsonDoc) (f : BsonDoc → Value),
      c.SchemaStruct = some schema →
      filter.type.kind ≠ GoKind.ptrK →
      filter.type.kind = GoKind.mapK →
      drv.findRawRes filter = Except.ok docs →
      (∀ d ∈ docs, drv.decode d (copyInterface schema.type) = Except.ok (f d)) →
      drv.closeRes = none →
      ∃ items, (FindMap drv c filter).1 = GoResult.ret (some items) none
        ∧ items.length = docs.length
        ∧ (∀ i : Nat, items[i]?
            = (docs[i]?).map (fun d => ⟨i, copyInterface schema.type, f d⟩))
        ∧ (items.map DecodedItem.addr).Nodup)
    ∧ (∀ (drv : Driver) (c : Collection) (schema filter : Value)
        (pre : List BsonDoc) (bad : BsonDoc) (rest : List BsonDoc)
        (f : BsonDoc → Value) (e : Err),
      c.SchemaStruct = some schema →
      filter.type.kind ≠ GoKind.ptrK →
      filter.type.kind = GoKind.mapK →
      drv.findRawRes filter = Except.ok (pre ++ bad :: rest) →
      (∀ d ∈ pre, drv.decode d (copyInterface schema.type) = Except.ok (f d)) →
      drv.decode bad (copyInterface schema.type) = Except.error e →
      (FindMap drv c filter).1
        = GoResult.ret none (some (Err.wrap ("FindMap - Cursor Decode Error") e)))
    ∧ (∀ (drv : Driver) (c : Collection) (schema pipeline : Value)
        (docs : List BsonDoc) (f : BsonDoc → Value),
      c.SchemaStruct = some schema →
      drv.aggregateRes pipeline = Except.ok docs →
      (∀ d ∈ docs, drv.decode d (copyInterface schema.type) = Except.ok (f d)) →
      drv.closeRes = none →
      ∃ items, (Aggregate drv c pipeline).1 = GoResult.ret (some items) none
        ∧ items.length = docs.length
        ∧ (∀ i : Nat, items[i]?
            = (docs[i]?).map (fun d => ⟨i, copyInterface schema.type, f d⟩))
        ∧ (items.map DecodedItem.addr).Nodup)
    ∧ (∀ (drv : Driver) (c : Collection) (schema pipeline : Value)
        (pre : List BsonDoc) (bad : BsonDoc) (rest : List BsonDoc)
        (f : BsonDoc → Value) (e : Err),
      c.SchemaStruct = some schema →
      drv.aggregateRes pipeline = Except.ok (pre ++ bad :: rest) →
      (∀ d ∈ pre, drv.decode d (copyInterface schema.type) = Except.ok (f d)) →
      drv.decode bad (copyInterface schema.type) = Except.error e →
      (Aggregate drv c pipeline).1
        = GoResult.ret none (some (Err.wrap ("Aggregate - Cursor Decode Error") e))) := by
  refine ⟨?_, ?_, ?_, ?_, ?_, ?_⟩
  · intro drv c schema filter doc docs f hs hvd htb hfind hdec hclose
    have hl := cursorLoop_ok drv 1 ("Find - Cursor Decode Error")
      (copyInterface schema.type) docs 0 f hdec
    refine ⟨freshItems (copyInterface schema.type) f docs 0, ?_, ?_, ?_, ?_⟩
    · simp [Find, hs, hvd, htb, hfind, hl, hclose]
    · exact freshItems_length _ _ _ _
    · intro i
      rw [freshItems_getElem]
      simp
    · exact freshItems_addr_nodup _ _ _ _
  · intro drv c schema filter doc pre bad rest f e hs hvd htb hfind hok hbad
    have hl := cursorLoop_err drv 1 ("Find - Cursor Decode Error")
      (copyInterface schema.type) pre bad rest 0 f e hok hbad
    simp [Find, hs, hvd, htb, hfind, hl]
  · intro drv c schema filter docs f hs h1 h2 hfind hdec hclose
    have hv : verifyKind filter.type [GoKind.mapK] = true := by
      simp [verifyKind, h1, h2]
    have hl := cursorLoop_ok drv 1 ("FindMap - Cursor Decode Error")
      (copyInterface schema.type) docs 0 f hdec
    refine ⟨freshItems (copyInterface schema.type) f docs 0, ?_, ?_, ?_, ?_⟩
    · unfold FindMap
      rw [if_neg h1, if_neg (by simp [hv])]
      simp [hs, hfind, hl, hclose]
    · exact freshItems_length _ _ _ _
    · intro i
      rw [freshItems_getElem]
      simp
    · exact freshItems_addr_nodup _ _ _ _
  · intro drv c schema filter pre bad rest f e hs h1 h2 hfind hok hbad
    have hv : verifyKind filter.type [GoKind.mapK] = true := by
      simp [verifyKind, h1, h2]
    have hl := cursorLoop_err drv 1 ("FindMap - Cursor Decode Error")
      (copyInterface schema.type) pre bad rest 0 f e hok hbad
    unfold FindMap
    rw [if_neg h1, if_neg (by simp [hv])]
    simp [hs, hfind, hl]
  · intro drv c schema pipeline docs f hs hagg hdec hclose
    have hl := cursorLoop_ok drv 1 ("Aggregate - Cursor Decode Error")
      (copyInterface schema.type) docs 0 f hdec
    refine ⟨freshItems (copyInterface schema.type) f docs 0, ?_, ?_, ?_, ?_⟩
    · simp [Aggregate, hs, hagg, hl, hclose]
    · exact freshItems_length _ _ _ _
    · intro i
      rw [freshItems_getElem]
      simp
    · exact freshItems_addr_nodup _ _ _ _
  · intro drv c schema pipeline pre bad rest f e hs hagg hok hbad
    have hl := cursorLoop_err drv 1 ("Aggregate - Cursor Decode Error")
      (copyInterface schema.type) pre bad rest 0 f e hok hbad
    simp [Aggregate, hs, hagg, hl]

def doc1 : BsonDoc := [("word", BsonValue.str ("a"))]

def doc2 : BsonDoc := [("word", BsonValue.str ("b"))]

/-- A driver whose find cursor yields two documents. -/
def cursorDriver : Driver :=
  { sampleDriver with findRes := fun _ => .ok [doc1, doc2] }

/-- Witness for C6: a two-document cursor decodes into two fresh items. -/
theorem C6_cursor_results_witness :
    ∃ items, (Find cursorDriver sampleCollection itemValue).1
        = GoResult.ret (some items) none
      ∧ items.length = [doc1, doc2].length
      ∧ (∀ i : Nat, items[i]?
          = ([doc1, doc2][i]?).map (fun _ => ⟨i, copyInterface itemSchema.type,
              Value.base (copyInterface itemSchema.type) 7⟩))
      ∧ (items.map DecodedItem.addr).Nodup :=
  C6_cursor_results.1 cursorDriver sampleCollection itemSchema itemValue
    [("word", BsonValue.str ("w"))] [doc1, doc2]
    (fun _ => Value.base (copyInterface itemSchema.type) 7)
    rfl (by decide) (by decide) rfl (fun _ _ => rfl) rfl

theorem cursorLoop_decode_events (drv : Driver) (ctxId : Nat) (wrapMsg : String)
    (pointee : GoType) (docs : List BsonDoc) (addr : Nat) :
    ∀ d, Event.cursorDecode d ∈ (cursorLoop drv ctxId wrapMsg pointee docs addr).2 →
      d ∈ docs := by
  induction docs generalizing addr with
  | nil => intro d hd; cases hd
  | cons dd rest ih =>
    intro d hd
    cases hdec : drv.decode dd pointee with
    | error e =>
      simp only [cursorLoop, hdec] at hd
      simp at hd
      simp [hd]
    | ok v =>
      rcases hr : cursorLoop drv ctxId wrapMsg pointee rest (addr + 1) with ⟨lres, levs⟩
      have hihm : ∀ x, Event.cursorDecode x ∈ levs → x ∈ rest := fun x hx =>
        ih (addr + 1) x (by rw [hr]; exact hx)
      simp only [cursorLoop, hdec, hr] at hd
      cases lres with
      | error e =>
        simp at hd
        rcases hd with h | h
        · simp [h]
        · exact List.mem_cons_of_mem _ (hihm d h)
      | ok items =>
        simp at hd
        rcases hd with h | h
        · simp [h]
        · exact List.mem_cons_of_mem _ (hihm d h)

/-- C5: every CRUD operation runs validate, translate, driver call, decode
in that fixed order: a validation failure leaves a trace with no
translation and no driver call; a BSON translation failure returns nil and
the translation error with no driver call; the successful traces of the
non-cursor operations show the fixed stage order; and every document Find
decodes is one the driver's find call returned. -/
theorem C5_stage_order :
    (∀ (drv : Driver) (c : Collection) (schema x : Value) (e : Err),
      c.SchemaStruct = some schema → verifyDataSchema schema x = some e →
      InsertOne drv c x =
        (GoResult.ret none (some (Err.wrap ("InsertOne - Schema Verification Error") e)),
         [Event.validate]))
    ∧ (∀ (drv : Driver) (c : Collection) (schema x : Value) (e : Err),
      c.SchemaStruct = some schema → verifyDataSchema schema x = some e →
      Find drv c x =
        (GoResult.ret none (some (Err.wrap ("Find - Schema Verification Error") e)),
         [Event.validate]))
    ∧ (∀ (drv : Driver) (c : Collection) (schema x : Value) (e : Err),
      c.SchemaStruct = some schema → verifyDataSchema schema x = some e →
      FindOne drv c x =
        (GoResult.ret none (some (Err.wrap ("Find - Schema Verification Error") e)),
         [Event.validate]))
    ∧ (∀ (drv : Driver) (c : Collection) (schema x : Value) (e : Err),
      c.SchemaStruct = some schema → verifyDataSchema schema x = some e →
      DeleteMany drv c x =
        (GoResult.ret none (some (Err.wrap ("DeleteMany - Schema Verification Error") e)),
         [Event.validate]))
    ∧ (∀ (drv : Driver) (c : Collection) (filter update : Value),
      verifyKind filter.type [GoKind.mapK, GoKind.structK] = false →
      UpdateMany drv c filter update =
        (GoResult.ret none (some (Err.new
            ("UpdateMany - Filter-argument must be a Map or Struct (pointer or non-pointer)"))),
         [Event.validate]))
    ∧ (∀ (drv : Driver) (c : Collection) (filter update : Value),
      verifyKind filter.type [GoKind.mapK, GoKind.structK] = true →
      verifyKind update.type [GoKind.mapK] = false →
      UpdateMany drv c filter update =
        (GoResult.ret none (some (Err.new
            ("UpdateMany - Update-argument must be a Map (pointer or non-pointer)"))),
         [Event.validate]))
    ∧ (∀ (drv : Driver) (c : Collection) (schema x : Value) (e : Err),
      c.SchemaStruct = some schema → verifyDataSchema schema x = none →
      toBSON drv.encode x = TB.err e →
      InsertOne drv c x =
        (GoResult.ret none (some (Err.wrap ("InsertOne - BSON Convert Error") e)),
         [Event.validate, Event.translate]))
    ∧ (∀ (drv : Driver) (c : Collection) (schema x : Value) (e : Err),
      c.SchemaStruct = some schema → verifyDataSchema schema x = none →
      toBSON drv.encode x = TB.err e →
      Find drv c x =
        (GoResult.ret none (some (Err.wrap ("Find - BSON Convert Error") e)),
         [Event.validate, Event.translate]))
    ∧ (∀ (drv : Driver) (c : Collection) (schema x : Value) (e : Err),
      c.SchemaStruct = some schema → verifyDataSchema schema x = none →
      toBSON drv.encode x = TB.err e →
      FindOne drv c x =
        (GoResult.ret none (some (Err.wrap ("Find - BSON Convert Error") e)),
         [Event.validate, Event.translate]))
    ∧ (∀ (drv : Driver) (c : Collection) (schema x : Value) (e : Err),
      c.SchemaStruct = some schema → verifyDataSchema schema x = none →
      toBSON drv.encode x = TB.err e →
      DeleteMany drv c x =
        (GoResult.ret none (some (Err.wrap ("DeleteMany - BSON Convert Error") e)),
         [Event.validate, Event.translate]))
    ∧ (∀ (drv : Driver) (c : Collection) (filter update : Value) (e : Err),
      verifyKind filter.type [GoKind.mapK, GoKind.structK] = true →
      verifyKind update.type [GoKind.mapK] = true →
      toBSON drv.encode (Value.setWrapPtr update) = TB.err e →
      UpdateMany drv c filter update =
        (GoResult.ret none (some (Err.wrap
            ("UpdateMany - BSON Convert Error for update-argument") e)),
         [Event.validate, Event.translate]))
    ∧ (∀ (drv : Driver) (c : Collection) (filter update : Value)
        (updateDoc : BsonDoc) (e : Err),
      verifyKind filter.type [GoKind.mapK, GoKind.structK] = true →
      verifyKind update.type [GoKind.mapK] = true →
      toBSON drv.encode (Value.setWrapPtr update) = TB.ok updateDoc →
      toBSON drv.encode filter = TB.err e →
      UpdateMany drv c filter update =
        (GoResult.ret none (some (Err.wrap
            ("UpdateMany - BSON Convert Error for filter-argument") e)),
         [Event.validate, Event.translate, Event.translate]))
    ∧ (∀ (drv : Driver) (c : Collection) (schema x : Value) (doc : BsonDoc)
        (r : InsertOneResult),
      c.SchemaStruct = some schema → verifyDataSchema schema x = none →
      toBSON drv.encode x = TB.ok doc → drv.insertOneRes doc = Except.ok r →
      InsertOne drv c x =
        (GoResult.ret (some r) none,
         [Event.validate, Event.translate, Event.ctxCreate 0 c.Connection.Timeout,
          Event.driverInsertOne 0 doc, Event.ctxCancel 0]))
    ∧ (∀ (drv : Driver) (c : Collection) (schema x : Value) (doc : BsonDoc)
        (r : DeleteResult),
      c.SchemaStruct = some schema → verifyDataSchema schema x = none →
      toBSON drv.encode x = TB.ok doc → drv.deleteManyRes doc = Except.ok r →
      DeleteMany drv c x =
        (GoResult.ret (some r) none,
         [Event.validate, Event.translate, Event.ctxCreate 0 c.Connection.Timeout,
          Event.driverDeleteMany 0 doc, Event.ctxCancel 0]))
    ∧ (∀ (drv : Driver) (c : Collection) (schema x : Value) (doc : BsonDoc) (v : Value),
      c.SchemaStruct = some schema → verifyDataSchema schema x = none →
      toBSON drv.encode x = TB.ok doc →
      drv.findOneDecode doc (copyInterface schema.type) = Except.ok v →
      FindOne drv c x =
        (GoResult.ret (some ⟨0, copyInterface schema.type, v⟩) none,
         [Event.validate, Event.translate, Event.ctxCreate 0 c.Connection.Timeout,
          Event.driverFindOne 0 doc, Event.ctxCancel 0]))
    ∧ (∀ (drv : Driver) (c : Collection) (filter update : Value)
        (updateDoc filterDoc : BsonDoc) (r : UpdateResult),
      verifyKind filter.type [GoKind.mapK, GoKind.structK] = true →
      verifyKind update.type [GoKind.mapK] = true →
      toBSON drv.encode (Value.setWrapPtr update) = TB.ok updateDoc →
      toBSON drv.encode filter = TB.ok filterDoc →
      drv.updateManyRes filterDoc updateDoc = Except.ok r →
      UpdateMany drv c filter update =
        (GoResult.ret (some r) none,
         [Event.validate, Event.translate, Event.translate,
          Event.ctxCreate 0 c.Connection.Timeout,
          Event.driverUpdateMany 0 filterDoc updateDoc, Event.ctxCancel 0]))
    ∧ (∀ (drv : Driver) (c : Collection) (x : Value) (d : BsonDoc),
      Event.cursorDecode d ∈ (Find drv c x).2 →
      ∃ doc docs, toBSON drv.encode x = TB.ok doc
        ∧ drv.findRes doc = Except.ok docs ∧ d ∈ docs) := by
  refine ⟨?_, ?_, ?_, ?_, ?_, ?_, ?_, ?_, ?_, ?_, ?_, ?_, ?_, ?_, ?_, ?_, ?_⟩
  · intro drv c schema x e hs hvd
    simp [InsertOne, hs, hvd]
  · intro drv c schema x e hs hvd
    simp [Find, hs, hvd]
  · intro drv c schema x e hs hvd
    simp [FindOne, hs, hvd]
  · intro drv c schema x e hs hvd
    simp [DeleteMany, hs, hvd]
  · intro drv c filter update h1
    simp [UpdateMany, h1]
  · intro drv c filter update h1 h2
    simp [UpdateMany, h1, h2]
  · intro drv c schema x e hs hvd htb
    simp [InsertOne, hs, hvd, htb]
  · intro drv c schema x e hs hvd htb
    simp [Find, hs, hvd, htb]
  · intro drv c schema x e hs hvd htb
    simp [FindOne, hs, hvd, htb]
  · intro drv c schema x e hs hvd htb
    simp [DeleteMany, hs, hvd, htb]
  · intro drv c filter update e h1 h2 htb
    simp [UpdateMany, h1, h2, htb]
  · intro drv c filter update updateDoc e h1 h2 htu htf
    simp [UpdateMany, h1, h2, htu, htf]
  · intro drv c schema x doc r hs hvd htb hio
    simp [InsertOne, hs, hvd, htb, hio, newTimeoutContext]
  · intro drv c schema x doc r hs hvd htb hio
    simp [DeleteMany, hs, hvd, htb, hio, newTimeoutContext]
  · intro drv c schema x doc v hs hvd htb hio
    simp [FindOne, hs, hvd, htb, hio, newTimeoutContext]
  · intro drv c filter update updateDoc filterDoc r h1 h2 htu htf hur
    simp [UpdateMany, h1, h2, htu, htf, hur, newTimeoutContext]
  · intro drv c x d hd
    cases hs : c.SchemaStruct with
    | none => simp only [Find, hs] at hd; simp at hd
    | some schema =>
      cases hvd : verifyDataSchema schema x with
      | some e => simp only [Find, hs, hvd] at hd; simp at hd
      | none =>
        cases htb : toBSON drv.encode x with
        | err e => simp only [Find, hs, hvd, htb] at hd; simp at hd
        | panicked m => simp only [Find, hs, hvd, htb] at hd; simp at hd
        | ok doc =>
          cases hfind : drv.findRes doc with
          | error e =>
            simp only [Find, hs, hvd, htb, hfind, newTimeoutContext] at hd
            simp at hd
          | ok docs =>
            refine ⟨doc, docs, rfl, hfind, ?_⟩
            rcases hlp : cursorLoop drv 1 ("Find - Cursor Decode Error")
                (copyInterface schema.type) docs 0 with ⟨lres, levs⟩
            have hlev : ∀ y, Event.cursorDecode y ∈ levs → y ∈ docs := fun y hy =>
              cursorLoop_decode_events drv 1 ("Find - Cursor Decode Error")
                (copyInterface schema.type) docs 0 y (by rw [hlp]; exact hy)
            simp only [Find, hs, hvd, htb, hfind, hlp, newTimeoutContext] at hd
            cases lres with
            | error e =>
              simp at hd
              exact hlev d hd
            | ok items =>
              cases hc : drv.closeRes with
              | none =>
                rw [hc] at hd
                simp at hd
                exact hlev d hd
              | some e =>
                rw [hc] at hd
                simp at hd
                exact hlev d hd

/-- Witness for C5: a failed validation stops InsertOne at the validate
stage, and a fully successful InsertOne shows the fixed stage order. -/
theorem C5_stage_order_witness :
    InsertOne sampleDriver sampleCollection mismatchValue =
      (GoResult.ret none (some (Err.wrap ("InsertOne - Schema Verification Error") mismatchErr)),
       [Event.validate])
    ∧ InsertOne sampleDriver sampleCollection itemValue =
      (GoResult.ret (some ⟨1⟩) none,
       [Event.validate, Event.translate, Event.ctxCreate 0 3000,
        Event.driverInsertOne 0 [("word", BsonValue.str ("w"))], Event.ctxCancel 0]) :=
  ⟨C5_stage_order.1 sampleDriver sampleCollection itemSchema mismatchValue mismatchErr
      rfl (by decide),
   (C5_stage_order.2.2.2.2.2.2.2.2.2.2.2.2.1) sampleDriver sampleCollection itemSchema
      itemValue [("word", BsonValue.str ("w"))] ⟨1⟩ rfl (by decide) (by decide) rfl⟩

/-- Context identifiers used by driver invocations in a trace. -/
def driverCtxs (evs : List Event) : List Nat := evs.filterMap Event.driverCtx

theorem driverCtxs_append (a b : List Event) :
    driverCtxs (a ++ b) = driverCtxs a ++ driverCtxs b := by
  simp [driverCtxs]

/-- Every driver invocation in the trace was issued on a context that the
trace creates with the given timeout and also cancels. -/
def ctxDisciplined (T : Nat) (evs : List Event) : Prop :=
  ∀ cid ∈ driverCtxs evs, Event.ctxCreate cid T ∈ evs ∧ Event.ctxCancel cid ∈ evs

theorem ctxDisciplined_nil (T : Nat) : ctxDisciplined T [] := by
  intro cid hcid
  cases hcid

theorem ctxDisciplined_append (T : Nat) (a b : List Event)
    (ha : ctxDisciplined T a) (hb : ctxDisciplined T b) :
    ctxDisciplined T (a ++ b) := by
  intro cid hcid
  rw [driverCtxs_append, List.mem_append] at hcid
  rcases hcid with h | h
  · obtain ⟨h1, h2⟩ := ha cid h
    exact ⟨List.mem_append_left _ h1, List.mem_append_left _ h2⟩
  · obtain ⟨h1, h2⟩ := hb cid h
    exact ⟨List.mem_append_right _ h1, List.mem_append_right _ h2⟩

theorem cursorLoop_driverCtxs (drv : Driver) (ctxId : Nat) (wrapMsg : String)
    (pointee : GoType) (docs : List BsonDoc) (addr : Nat) :
    driverCtxs (cursorLoop drv ctxId wrapMsg pointee docs addr).2 = [] := by
  induction docs generalizing addr with
  | nil => rfl
  | cons d rest ih =>
    cases hdec : drv.decode d pointee with
    | error e => simp [cursorLoop, hdec, driverCtxs, Event.driverCtx]
    | ok v =>
      rcases hr : cursorLoop drv ctxId wrapMsg pointee rest (addr + 1) with ⟨lres, levs⟩
      have hno : driverCtxs levs = [] := by
        have h0 := ih (addr + 1)
        rw [hr] at h0
        exact h0
      cases lres with
      | error e =>
        simp only [cursorLoop, hdec, hr]
        simp [driverCtxs, Event.driverCtx, driverCtxs_append] at hno ⊢
        exact hno
      | ok items =>
        simp only [cursorLoop, hdec, hr]
        simp [driverCtxs, Event.driverCtx, driverCtxs_append] at hno ⊢
        exact hno

theorem insertOne_ctxOk (drv : Driver) (c : Collection) (x : Value) :
    ctxDisciplined c.Connection.Timeout (InsertOne drv c x).2 := by
  cases hs : c.SchemaStruct with
  | none =>
    intro cid hcid
    simp [InsertOne, hs, driverCtxs, Event.driverCtx] at hcid
  | some schema =>
    cases hvd : verifyDataSchema schema x with
    | some e =>
      intro cid hcid
      simp [InsertOne, hs, hvd, driverCtxs, Event.driverCtx] at hcid
    | none =>
      cases htb : toBSON drv.encode x with
      | err e =>
        intro cid hcid
        simp [InsertOne, hs, hvd, htb, driverCtxs, Event.driverCtx] at hcid
      | panicked m =>
        intro cid hcid
        simp [InsertOne, hs, hvd, htb, driverCtxs, Event.driverCtx] at hcid
      | ok doc =>
        cases hio : drv.insertOneRes doc with
        | error e =>
          intro cid hcid
          simp [InsertOne, hs, hvd, htb, hio, newTimeoutContext,
            driverCtxs, Event.driverCtx] at hcid
          subst hcid
          simp [InsertOne, hs, hvd, htb, hio, newTimeoutContext]
        | ok r =>
          intro cid hcid
          simp [InsertOne, hs, hvd, htb, hio, newTimeoutContext,
            driverCtxs, Event.driverCtx] at hcid
          subst hcid
          simp [InsertOne, hs, hvd, htb, hio, newTimeoutContext]

theorem deleteMany_ctxOk (drv : Driver) (c : Collection) (x : Value) :
    ctxDisciplined c.Connection.Timeout (DeleteMany drv c x).2 := by
  cases hs : c.SchemaStruct with
  | none =>
    intro cid hcid
    simp [DeleteMany, hs, driverCtxs, Event.driverCtx] at hcid
  | some schema =>
    cases hvd : verifyDataSchema schema x with
    | some e =>
      intro cid hcid
      simp [DeleteMany, hs, hvd, driverCtxs, Event.driverCtx] at hcid
    | none =>
      cases htb : toBSON drv.encode x with
      | err e =>
        intro cid hcid
        simp [DeleteMany, hs, hvd, htb, driverCtxs, Event.driverCtx] at hcid
      | panicked m =>
        intro cid hcid
        simp [DeleteMany, hs, hvd, htb, driverCtxs, Event.driverCtx] at hcid
      | ok doc =>
        cases hio : drv.deleteManyRes doc with
        | error e =>
          intro cid hcid
          simp [DeleteMany, hs, hvd, htb, hio, newTimeoutContext,
            driverCtxs, Event.driverCtx] at hcid
          subst hcid
          simp [DeleteMany, hs, hvd, htb, hio, newTimeoutContext]
        | ok r =>
          intro cid hcid
          simp [DeleteMany, hs, hvd, htb, hio, newTimeoutContext,
            driverCtxs, Event.driverCtx] at hcid
          subst hcid
          simp [DeleteMany, hs, hvd, htb, hio, newTimeoutContext]

theorem findOne_ctxOk (drv : Driver) (c : Collection) (x : Value) :
    ctxDisciplined c.Connection.Timeout (FindOne drv c x).2 := by
  cases hs : c.SchemaStruct with
  | none =>
    intro cid hcid
    simp [FindOne, hs, driverCtxs, Event.driverCtx] at hcid
  | some schema =>
    cases hvd : verifyDataSchema schema x with
    | some e =>
      intro cid hcid
      simp [FindOne, hs, hvd, driverCtxs, Event.driverCtx] at hcid
    | none =>
      cases htb : toBSON drv.encode x with
      | err e =>
        intro cid hcid
        simp [FindOne, hs, hvd, htb, driverCtxs, Event.driverCtx] at hcid
      | panicked m =>
        intro cid hcid
        simp [FindOne, hs, hvd, htb, driverCtxs, Event.driverCtx] at hcid
      | ok doc =>
        cases hio : drv.findOneDecode doc (copyInterface schema.type) with
        | error e =>
          intro cid hcid
          simp [FindOne, hs, hvd, htb, hio, newTimeoutContext,
            driverCtxs, Event.driverCtx] at hcid
          subst hcid
          simp [FindOne, hs, hvd, htb, hio, newTimeoutContext]
        | ok v =>
          intro cid hcid
          simp [FindOne, hs, hvd, htb, hio, newTimeoutContext,
            driverCtxs, Event.driverCtx] at hcid
          subst hcid
          simp [FindOne, hs, hvd, htb, hio, newTimeoutContext]

theorem updateMany_ctxOk (drv : Driver) (c : Collection) (filter update : Value) :
    ctxDisciplined c.Connection.Timeout (UpdateMany drv c filter update).2 := by
  by_cases h1 : verifyKind filter.type [GoKind.mapK, GoKind.structK] = false
  · intro cid hcid
    simp [UpdateMany, h1, driverCtxs, Event.driverCtx] at hcid
  · rw [Bool.not_eq_false] at h1
    by_cases h2 : verifyKind update.type [GoKind.mapK] = false
    · intro cid hcid
      simp [UpdateMany, h1, h2, driverCtxs, Event.driverCtx] at hcid
    · rw [Bool.not_eq_false] at h2
      cases htu : toBSON drv.encode (Value.setWrapPtr update) with
      | err e =>
        intro cid hcid
        simp [UpdateMany, h1, h2, htu, driverCtxs, Event.driverCtx] at hcid
      | panicked m =>
        intro cid hcid
        simp [UpdateMany, h1, h2, htu, driverCtxs, Event.driverCtx] at hcid
      | ok updateDoc =>
        cases htf : toBSON drv.encode filter with
        | err e =>
          intro cid hcid
          simp [UpdateMany, h1, h2, htu, htf, driverCtxs, Event.driverCtx] at hcid
        | panicked m =>
          intro cid hcid
          simp [UpdateMany, h1, h2, htu, htf, driverCtxs, Event.driverCtx] at hcid
        | ok filterDoc =>
          cases hur : drv.updateManyRes filterDoc updateDoc with
          | error e =>
            intro cid hcid
            simp [UpdateMany, h1, h2, htu, htf, hur, newTimeoutContext,
              driverCtxs, Event.driverCtx] at hcid
            subst hcid
            simp [UpdateMany, h1, h2, htu, htf, hur, newTimeoutContext]
          | ok r =>
            intro cid hcid
            simp [UpdateMany, h1, h2, htu, htf, hur, newTimeoutContext,
              driverCtxs, Event.driverCtx] at hcid
            subst hcid
            simp [UpdateMany, h1, h2, htu, htf, hur, newTimeoutContext]

theorem find_ctxOk (drv : Driver) (c : Collection) (x : Value) :
    ctxDisciplined c.Connection.Timeout (Find drv c x).2 := by
  cases hs : c.SchemaStruct with
  | none =>
    intro cid hcid
    simp [Find, hs, driverCtxs, Event.driverCtx] at hcid
  | some schema =>
    cases hvd : verifyDataSchema schema x with
    | some e =>
      intro cid hcid
      simp [Find, hs, hvd, driverCtxs, Event.driverCtx] at hcid
    | none =>
      cases htb : toBSON drv.encode x with
      | err e =>
        intro cid hcid
        simp [Find, hs, hvd, htb, driverCtxs, Event.driverCtx] at hcid
      | panicked m =>
        intro cid hcid
        simp [Find, hs, hvd, htb, driverCtxs, Event.driverCtx] at hcid
      | ok doc =>
        cases hfind : drv.findRes doc with
        | error e =>
          intro cid hcid
          simp [Find, hs, hvd, htb, hfind, newTimeoutContext,
            driverCtxs, Event.driverCtx] at hcid
          subst hcid
          simp [Find, hs, hvd, htb, hfind, newTimeoutContext]
        | ok docs =>
          rcases hlp : cursorLoop drv 1 ("Find - Cursor Decode Error")
              (copyInterface schema.type) docs 0 with ⟨lres, levs⟩
          have hno : List.filterMap Event.driverCtx levs = [] := by
            have h0 := cursorLoop_driverCtxs drv 1 ("Find - Cursor Decode Error")
              (copyInterface schema.type) docs 0
            rw [hlp] at h0
            simpa [driverCtxs] using h0
          cases lres with
          | error e =>
            intro cid hcid
            simp [Find, hs, hvd, htb, hfind, hlp, newTimeoutContext,
              driverCtxs, Event.driverCtx, hno] at hcid
            subst hcid
            simp [Find, hs, hvd, htb, hfind, hlp, newTimeoutContext]
          | ok items =>
            cases hc : drv.closeRes with
            | some e =>
              intro cid hcid
              simp [Find, hs, hvd, htb, hfind, hlp, hc, newTimeoutContext,
                driverCtxs, Event.driverCtx, hno] at hcid
              subst hcid
              simp [Find, hs, hvd, htb, hfind, hlp, hc, newTimeoutContext]
            | none =>
              intro cid hcid
              simp [Find, hs, hvd, htb, hfind, hlp, hc, newTimeoutContext,
                driverCtxs, Event.driverCtx, hno] at hcid
              subst hcid
              simp [Find, hs, hvd, htb, hfind, hlp, hc, newTimeoutContext]

theorem findMap_ctxOk (drv : Driver) (c : Collection) (x : Value) :
    ctxDisciplined c.Connection.Timeout (FindMap drv c x).2 := by
  by_cases h1 : x.type.kind = GoKind.ptrK
  · intro cid hcid
    simp [FindMap, h1, driverCtxs, Event.driverCtx] at hcid
  · by_cases h2 : verifyKind x.type [GoKind.mapK] = false
    · intro cid hcid
      simp [FindMap, h1, h2, driverCtxs, Event.driverCtx] at hcid
    · rw [Bool.not_eq_false] at h2
      cases hfind : drv.findRawRes x with
      | error e =>
        intro cid hcid
        simp [FindMap, h1, h2, hfind, newTimeoutContext,
          driverCtxs, Event.driverCtx] at hcid
        subst hcid
        simp [FindMap, h1, h2, hfind, newTimeoutContext]
      | ok docs =>
        cases hs : c.SchemaStruct with
        | none =>
          intro cid hcid
          simp [FindMap, h1, h2, hfind, hs, newTimeoutContext,
            driverCtxs, Event.driverCtx] at hcid
          subst hcid
          simp [FindMap, h1, h2, hfind, hs, newTimeoutContext]
        | some schema =>
          rcases hlp : cursorLoop drv 1 ("FindMap - Cursor Decode Error")
              (copyInterface schema.type) docs 0 with ⟨lres, levs⟩
          have hno : List.filterMap Event.driverCtx levs = [] := by
            have h0 := cursorLoop_driverCtxs drv 1 ("FindMap - Cursor Decode Error")
              (copyInterface schema.type) docs 0
            rw [hlp] at h0
            simpa [driverCtxs] using h0
          cases lres with
          | error e =>
            intro cid hcid
            simp [FindMap, h1, h2, hfind, hs, hlp, newTimeoutContext,
              driverCtxs, Event.driverCtx, hno] at hcid
            subst hcid
            simp [FindMap, h1, h2, hfind, hs, hlp, newTimeoutContext]
          | ok items =>
            cases hc : drv.closeRes with
            | some e =>
              intro cid hcid
              simp [FindMap, h1, h2, hfind, hs, hlp, hc, newTimeoutContext,
                driverCtxs, Event.driverCtx, hno] at hcid
              subst hcid
              simp [FindMap, h1, h2, hfind, hs, hlp, hc, newTimeoutContext]
            | none =>
              intro cid hcid
              simp [FindMap, h1, h2, hfind, hs, hlp, hc, newTimeoutContext,
                driverCtxs, Event.driverCtx, hno] at hcid
              subst hcid
              simp [FindMap, h1, h2, hfind, hs, hlp, hc, newTimeoutContext]

theorem aggregate_ctxOk (drv : Driver) (c : Collection) (p : Value) :
    ctxDisciplined c.Connection.Timeout (Aggregate drv c p).2 := by
  cases hagg : drv.aggregateRes p with
  | error e =>
    intro cid hcid
    simp [Aggregate, hagg, newTimeoutContext, driverCtxs, Event.driverCtx] at hcid
    subst hcid
    simp [Aggregate, hagg, newTimeoutContext]
  | ok docs =>
    cases hs : c.SchemaStruct with
    | none =>
      intro cid hcid
      simp [Aggregate, hagg, hs, newTimeoutContext, driverCtxs, Event.driverCtx] at hcid
      subst hcid
      simp [Aggregate, hagg, hs, newTimeoutContext]
    | some schema =>
      rcases hlp : cursorLoop drv 1 ("Aggregate - Cursor Decode Error")
          (copyInterface schema.type) docs 0 with ⟨lres, levs⟩
      have hno : List.filterMap Event.driverCtx levs = [] := by
        have h0 := cursorLoop_driverCtxs drv 1 ("Aggregate - Cursor Decode Error")
          (copyInterface schema.type) docs 0
        rw [hlp] at h0
        simpa [driverCtxs] using h0
      cases lres with
      | error e =>
        intro cid hcid
        simp [Aggregate, hagg, hs, hlp, newTimeoutContext,
          driverCtxs, Event.driverCtx, hno] at hcid
        subst hcid
        simp [Aggregate, hagg, hs, hlp, newTimeoutContext]
      | ok items =>
        cases hc : drv.closeRes with
        | some e =>
          intro cid hcid
          simp [Aggregate, hagg, hs, hlp, hc, newTimeoutContext,
            driverCtxs, Event.driverCtx, hno] at hcid
          subst hcid
          simp [Aggregate, hagg, hs, hlp, hc, newTimeoutContext]
        | none =>
          intro cid hcid
          simp [Aggregate, hagg, hs, hlp, hc, newTimeoutContext,
            driverCtxs, Event.driverCtx, hno] at hcid
          subst hcid
          simp [Aggregate, hagg, hs, hlp, hc, newTimeoutContext]

theorem ensureIndexLoop_ctxs (drv : Driver) (cfgs : List IndexConfig) :
    ∀ cid ∈ driverCtxs (ensureIndexLoop drv cfgs).2, cid = 0 := by
  induction cfgs with
  | nil => intro cid hcid; cases hcid
  | cons cfg rest ih =>
    intro cid hcid
    cases hci : drv.createIndexRes (indexKeysDoc cfg.ColumnConfig) (indexOptionsDoc cfg) with
    | some e =>
      simp [ensureIndexLoop, createIndex, hci, driverCtxs, Event.driverCtx] at hcid
      exact hcid
    | none =>
      rcases hr : ensureIndexLoop drv rest with ⟨r2, evs2⟩
      have hih : ∀ y ∈ driverCtxs evs2, y = 0 := fun y hy =>
        ih y (by rw [hr]; exact hy)
      simp only [ensureIndexLoop, createIndex, hci, hr] at hcid
      simp [driverCtxs, Event.driverCtx] at hcid
      rcases hcid with h | h
      · exact h
      · rcases h with ⟨a, ha, hda⟩
        exact hih cid (List.mem_filterMap.mpr ⟨a, ha, hda⟩)

theorem ensureCollection_ctxOk (drv : Driver) (c : Collection) :
    ctxDisciplined c.Connection.Timeout (EnsureCollection drv (some c)).2 := by
  cases hss : c.SchemaStruct with
  | none =>
    intro cid hcid
    simp [EnsureCollection, hss, verifySchemaStruct, driverCtxs] at hcid
  | some schema =>
    cases hvs : verifySchemaStruct (some schema) with
    | some e =>
      intro cid hcid
      simp [EnsureCollection, hss, hvs, driverCtxs] at hcid
    | none =>
      cases hidx : c.Indexes with
      | none =>
        intro cid hcid
        simp [EnsureCollection, hss, hvs, hidx, verifyIndexKeys, firstBadIndexKey,
          newTimeoutContext, driverCtxs, Event.driverCtx] at hcid
      | some cfgs =>
        cases hvk : verifyIndexKeys schema cfgs with
        | some e =>
          intro cid hcid
          simp [EnsureCollection, hss, hvs, hidx, hvk, driverCtxs] at hcid
        | none =>
          rcases hr : ensureIndexLoop drv cfgs with ⟨r2, evs2⟩
          have hih : ∀ y ∈ driverCtxs evs2, y = 0 := fun y hy =>
            ensureIndexLoop_ctxs drv cfgs y (by rw [hr]; exact hy)
          cases r2 with
          | some e =>
            intro cid hcid
            simp only [EnsureCollection, hss, hvs, hidx, Option.getD_some, hvk, hr,
              newTimeoutContext] at hcid
            simp [driverCtxs, Event.driverCtx] at hcid
            rcases hcid with ⟨a, ha, hda⟩
            have hcid0 : cid = 0 := hih cid (List.mem_filterMap.mpr ⟨a, ha, hda⟩)
            subst hcid0
            simp [EnsureCollection, hss, hvs, hidx, hvk, hr, newTimeoutContext]
          | none =>
            intro cid hcid
            simp only [EnsureCollection, hss, hvs, hidx, Option.getD_some, hvk, hr,
              newTimeoutContext] at hcid
            simp [driverCtxs, Event.driverCtx] at hcid
            rcases hcid with ⟨a, ha, hda⟩
            have hcid0 : cid = 0 := hih cid (List.mem_filterMap.mpr ⟨a, ha, hda⟩)
            subst hcid0
            simp [EnsureCollection, hss, hvs, hidx, hvk, hr, newTimeoutContext]

theorem insertManyLoop_ctxOk (drv : Driver) (c : Collection) (data : List Value) (i : Nat) :
    ctxDisciplined c.Connection.Timeout (insertManyLoop drv c data i).2 := by
  induction data generalizing i with
  | nil => exact ctxDisciplined_nil _
  | cons d rest ih =>
    rcases hI : InsertOne drv c d with ⟨r, evs1⟩
    have h1 : ctxDisciplined c.Connection.Timeout evs1 := by
      have h0 := insertOne_ctxOk drv c d
      rw [hI] at h0
      exact h0
    cases r with
    | panicked m =>
      intro cid hcid
      simp only [insertManyLoop, hI] at hcid ⊢
      exact h1 cid hcid
    | ret val err =>
      cases err with
      | some e =>
        intro cid hcid
        simp only [insertManyLoop, hI] at hcid ⊢
        exact h1 cid hcid
      | none =>
        cases val with
        | none =>
          intro cid hcid
          simp only [insertManyLoop, hI] at hcid ⊢
          exact h1 cid hcid
        | some r0 =>
          rcases hrec : insertManyLoop drv c rest (i + 1) with ⟨rr, evs2⟩
          have h2 : ctxDisciplined c.Connection.Timeout evs2 := by
            have h0 := ih (i + 1)
            rw [hrec] at h0
            exact h0
          have hall : ctxDisciplined c.Connection.Timeout (evs1 ++ evs2) :=
            ctxDisciplined_append _ _ _ h1 h2
          cases rr with
          | panicked m =>
            intro cid hcid
            simp only [insertManyLoop, hI, hrec] at hcid ⊢
            exact hall cid hcid
          | ret v2 e2 =>
            rcases v2 with _ | v3 <;> rcases e2 with _ | e3 <;>
              (intro cid hcid
               simp only [insertManyLoop, hI, hrec] at hcid ⊢
               exact hall cid hcid)

theorem insertMany_ctxOk (drv : Driver) (c : Collection) (data : List Value) :
    ctxDisciplined c.Connection.Timeout (InsertMany drv c data).2 := by
  have hg : InsertMany drv c data = insertManyLoop drv c data 0 := by
    simp [InsertMany, verifyKind, interfaceSliceType, GoType.kind, GoType.elemType]
  rw [hg]
  exact insertManyLoop_ctxOk drv c data 0

def Event.isCtxCreate : Event → Bool
  | .ctxCreate _ _ => true
  | _ => false

/-- Counterexample for C7: EnsureCollection with two index configs issues
two index-creation driver invocations but creates exactly one context in
the whole call, and both invocations carry the same context identifier, so
the driver invocations do not each receive a fresh per-call context. -/
theorem C7_counterexample :
    ((EnsureCollection sampleDriver (some indexedCollection)).2.filter
        Event.isDriverCall).length = 2
    ∧ ((EnsureCollection sampleDriver (some indexedCollection)).2.filter
        Event.isCtxCreate).length = 1
    ∧ driverCtxs (EnsureCollection sampleDriver (some indexedCollection)).2 = [0, 0] := by
  decide

/-- C7 as amended: every driver invocation made by EnsureCollection or a
CRUD helper is issued on a context that the same call created through
newTimeoutContext with timeout Connection.Timeout milliseconds and that it
also cancels before returning (so no driver call runs on an unbounded
context); within one EnsureCollection call all index creations share that
call's single context. -/
theorem C7_ctx_usage :
    (∀ (drv : Driver) (c : Collection),
      ctxDisciplined c.Connection.Timeout (EnsureCollection drv (some c)).2)
    ∧ (∀ (drv : Driver) (c : Collection) (x : Value),
      ctxDisciplined c.Connection.Timeout (InsertOne drv c x).2)
    ∧ (∀ (drv : Driver) (c : Collection) (data : List Value),
      ctxDisciplined c.Connection.Timeout (InsertMany drv c data).2)
    ∧ (∀ (drv : Driver) (c : Collection) (x : Value),
      ctxDisciplined c.Connection.Timeout (DeleteMany drv c x).2)
    ∧ (∀ (drv : Driver) (c : Collection) (filter update : Value),
      ctxDisciplined c.Connection.Timeout (UpdateMany drv c filter update).2)
    ∧ (∀ (drv : Driver) (c : Collection) (x : Value),
      ctxDisciplined c.Connection.Timeout (Find drv c x).2)
    ∧ (∀ (drv : Driver) (c : Collection) (x : Value),
      ctxDisciplined c.Connection.Timeout (FindOne drv c x).2)
    ∧ (∀ (drv : Driver) (c : Collection) (x : Value),
      ctxDisciplined c.Connection.Timeout (FindMap drv c x).2)
    ∧ (∀ (drv : Driver) (c : Collection) (p : Value),
      ctxDisciplined c.Connection.Timeout (Aggregate drv c p).2) :=
  ⟨ensureCollection_ctxOk, insertOne_ctxOk, insertMany_ctxOk, deleteMany_ctxOk,
   updateMany_ctxOk, find_ctxOk, findOne_ctxOk, findMap_ctxOk, aggregate_ctxOk⟩

/-- Witness for the amended C7 at the two-index collection. -/
theorem C7_ctx_usage_witness :
    ctxDisciplined 3000 (EnsureCollection sampleDriver (some indexedCollection)).2 :=
  C7_ctx_usage.1 sampleDriver indexedCollection
